import Mathlib

/-!
# YM7101 video controller (`hw/m68k/ym7101.c`)

A shallow embedding of the controller's state and of the functions that act on
it, followed by theorems about them.

Conventions of the embedding.

* Machine integers are natural numbers; where the C code narrows a value (a
  cast, an assignment to a narrower field, an argument of a narrower type) the
  model reduces it modulo the width, and where it masks, the model masks.
* The three byte arrays are functions from an index to a byte, and a store
  checks the index against the length of the array.
* `g_assert`/`assert` failures are values of `Fault`; a function that can hit
  one returns `Except Fault _`.
* `printf`-style diagnostics (`DPRINTF`, `PRINT_PC`, `dump_state`) have no
  effect on the controller state and are left out.
* `sizeof(target)` in `write_data_port` is the size of a `uint8_t *` on the
  machine that runs the emulator (8 on a 64-bit host, 4 on a 32-bit one); it is
  the parameter `sizeof_target` of `write_data_port` and `ym7101_write`.
-/

namespace Ym7101

/-! ## Constants -/

def PAL_MODE : Nat := 0x0001
def DMA_BUSY : Nat := 0x0002
def IN_HBLANK : Nat := 0x0004
def IN_VBLANK : Nat := 0x0008
def ODD_FRAME : Nat := 0x0010
def SPRITE_COLLISIO : Nat := 0x0020
def SPRITE_OVERFLOW : Nat := 0x0040
def V_INTERRUPT : Nat := 0x0080
def FIFO_FULL : Nat := 0x0100
def FIFO_EMPTY : Nat := 0x0200

def MEMORY_VRAM : Nat := 0x01
def MEMORY_CRAM : Nat := 0x02
def MEMORY_VSRAM : Nat := 0x03

def DMA_TYPE_NONE : Nat := 0x00
def DMA_TYPE_MEMORY : Nat := 0x01
def DMA_TYPE_FILL : Nat := 0x02
def DMA_TYPE_COPY : Nat := 0x03

/-! ## Faults and state -/

/-- The assertion failures of `ym7101.c`, one constructor per assertion, plus
the two conditions the C code leaves to its callee or to the language: the
range assertion inside `extract32` and a store outside an array. -/
inductive Fault where
  | unhandled_transfer_target
  | unhandled_write_control_port
  | invalid_scroll_size_option
  | unhandled_register
  | unexpected_second_byte
  | unhandled_ym7101_read
  | unhandled_ym7101_write
  | fill_size_assert
  | status_read_assert
  | extract32_assert
  | store_out_of_bounds
  deriving DecidableEq, Repr

/-- The three arrays `get_transfer_target` can return a pointer to. -/
inductive Bank where
  | vram
  | cram
  | vsram
  deriving DecidableEq, Repr

/-- Declared length of each array: `vram[0x10000]`, `cram[128]`, `vsram[80]`. -/
def Bank.size : Bank → Nat
  | .vram => 0x10000
  | .cram => 128
  | .vsram => 80

/-- The `Memory` struct. -/
structure Memory where
  vram : Nat → Nat
  cram : Nat → Nat
  vsram : Nat → Nat
  transfer_type : Nat
  transfer_bits : Nat
  transfer_count : Nat
  transfer_remain : Nat
  transfer_src_addr : Nat
  transfer_dest_addr : Nat
  transfer_auto_inc : Nat
  transfer_fill_word : Nat
  transfer_run : Nat
  transfer_target : Nat
  transfer_dma_busy : Bool
  ctrl_port_buffer : Nat
  ctrl_port_set : Bool

/-- The `State` struct (the part of `Ym7101State` the device functions touch). -/
structure State where
  status : Nat
  memory : Memory
  mode_1 : Nat
  mode_2 : Nat
  mode_3 : Nat
  mode_4 : Nat
  h_int_lines : Nat
  screen_size : Nat × Nat
  scroll_size : Nat × Nat
  window_pos : (Nat × Nat) × (Nat × Nat)
  window_values : Nat × Nat
  background : Nat
  scroll_a_addr : Nat
  scroll_b_addr : Nat
  window_addr : Nat
  sprites_addr : Nat
  hscroll_addr : Nat
  h_scanlines : Nat
  current_x : Int
  current_y : Int

/-- Contents of one of the arrays. -/
def Memory.bank (m : Memory) : Bank → Nat → Nat
  | .vram => m.vram
  | .cram => m.cram
  | .vsram => m.vsram

/-- The array `t` with byte `i` replaced by `v`. -/
def Memory.put (m : Memory) (t : Bank) (i v : Nat) : Memory :=
  match t with
  | .vram => { m with vram := fun j => if j = i then v else m.vram j }
  | .cram => { m with cram := fun j => if j = i then v else m.cram j }
  | .vsram => { m with vsram := fun j => if j = i then v else m.vsram j }

/-- The assignment `target[i] = v` through the pointer to array `t`; an index
past the end of the array is outside what C defines. -/
def Memory.store (m : Memory) (t : Bank) (i v : Nat) : Except Fault Memory :=
  if i < t.size then
    pure (m.put t i v)
  else
    throw Fault.store_out_of_bounds

/-! ## The functions of `ym7101.c` -/

/-- Modelled from the spec: `extract32` is declared in QEMU's `qemu/bitops.h`,
which is not among the sources here. The port window is big-endian and a
data-port write is stored byte by byte, so `extract32 value start 8` is the
byte of `value` that starts at bit `start`; in general the `length`-bit field
starting at bit `start`, asserting that the field lies inside the 32 bits. -/
def extract32 (value start length : Nat) : Except Fault Nat :=
  if 0 < length ∧ length + start ≤ 32 then
    pure ((value >>> start) &&& (0xFFFFFFFF >>> (32 - length)))
  else
    throw Fault.extract32_assert

def set_dma_mode (self : Memory) (mode : Nat) : Memory :=
  match mode with
  | 0 => { self with transfer_dma_busy := false, transfer_run := DMA_TYPE_NONE }
  | _ => { self with transfer_dma_busy := true, transfer_run := mode }

def get_transfer_target (self : Memory) : Except Fault Bank :=
  match self.transfer_target with
  | 1 => pure Bank.vram
  | 2 => pure Bank.cram
  | 3 => pure Bank.vsram
  | _ => throw Fault.unhandled_transfer_target

def setup_transfer (self : Memory) (first second : Nat) : Memory :=
  let s1 := { self with ctrl_port_buffer := 0 }
  let ty := (((first &&& 0xC000) >>> 14) ||| ((second &&& 0x00F0) >>> 2)) % 0x100
  let s2 := { s1 with transfer_type := ty }
  let s3 := { s2 with transfer_dest_addr := first &&& 0x3FFF }
  let s4 := { s3 with
    transfer_dest_addr := s3.transfer_dest_addr ||| ((second &&& 0x0003) <<< 14) }
  let s5 :=
    match s4.transfer_type &&& 0x0E with
    | 0 => { s4 with transfer_target := MEMORY_VRAM }
    | 4 => { s4 with transfer_target := MEMORY_VSRAM }
    | _ => { s4 with transfer_target := MEMORY_CRAM }
  if s5.transfer_type &&& 0x20 ≠ 0 then
    if s5.transfer_type &&& 0x10 ≠ 0 then
      set_dma_mode s5 DMA_TYPE_COPY
    else if s5.transfer_bits &&& 0x80 = 0 then
      set_dma_mode s5 DMA_TYPE_MEMORY
    else
      s5
  else
    s5

/-- The `for` loop of `write_data_port`: `n` iterations are left, the loop
variable is `i`. -/
def write_data_loop (sizeof_target : Nat) (target : Bank) (addr value size : Nat) :
    Nat → Nat → Memory → Except Fault Memory
  | 0, _, m => pure m
  | n + 1, i, m => do
    let b ← extract32 value ((size - i - 1) * 8) 8
    let m1 ← m.store target ((addr + i) % sizeof_target) b
    write_data_loop sizeof_target target addr value size n (i + 1) m1

def write_data_port (sizeof_target : Nat) (self : Memory) (value size : Nat) :
    Except Fault Memory :=
  if self.transfer_type &&& 0x30 = 0x20 then
    if size ≤ 4 then
      let s1 := { self with ctrl_port_set := false }
      let s2 := { s1 with
        transfer_fill_word := if size = 2 then value % 0x10000 else value &&& 0xff }
      pure (set_dma_mode s2 DMA_TYPE_FILL)
    else
      throw Fault.fill_size_assert
  else do
    let addr := self.transfer_dest_addr
    let target ← get_transfer_target self
    let s1 ← write_data_loop sizeof_target target addr value size size 0 self
    pure { s1 with
      transfer_dest_addr := (s1.transfer_dest_addr + s1.transfer_auto_inc) % 2 ^ 32 }

def write_control_port (self : Memory) (value size : Nat) : Except Fault Memory :=
  match size with
  | 2 =>
    if self.ctrl_port_set then
      pure (setup_transfer self self.ctrl_port_buffer (value % 0x10000))
    else
      pure { self with ctrl_port_set := true, ctrl_port_buffer := value % 0x10000 }
  | 4 =>
    if !self.ctrl_port_set then
      pure (setup_transfer self ((value >>> 16) % 0x10000) ((value &&& 0xffff) % 0x10000))
    else
      throw Fault.unhandled_write_control_port
  | _ => throw Fault.unhandled_write_control_port

def decode_scroll_size (size : Nat) : Except Fault Nat :=
  match size with
  | 0 => pure 32
  | 1 => pure 64
  | 3 => pure 128
  | _ => throw Fault.invalid_scroll_size_option

/-- The stubs `update_screen_size` and `update_window_position` have empty
bodies. -/
def update_screen_size (self : State) : State := self

def update_window_position (self : State) : State := self

def set_register (self : State) (value : Nat) : Except Fault State :=
  let reg := (value &&& 0x1F00) >>> 8
  let data := value &&& 0x00FF
  match reg with
  | 0x00 => pure { self with mode_1 := data }
  | 0x01 => pure (update_screen_size { self with mode_2 := data })
  | 0x02 => pure { self with scroll_a_addr := data <<< 10 }
  | 0x03 => pure { self with window_addr := data <<< 10 }
  | 0x04 => pure { self with scroll_b_addr := data <<< 13 }
  | 0x05 => pure { self with sprites_addr := data <<< 9 }
  | 0x07 => pure { self with background := data }
  | 0x0A => pure { self with h_int_lines := data }
  | 0x0B => pure { self with mode_3 := data }
  | 0x0C => pure (update_screen_size { self with mode_4 := data })
  | 0x0D => pure { self with hscroll_addr := data <<< 10 }
  | 0x0F => pure { self with memory := { self.memory with transfer_auto_inc := data } }
  | 0x10 => do
    let h ← decode_scroll_size (data &&& 0x03)
    let v ← decode_scroll_size ((data >>> 4) &&& 0x03)
    pure { self with scroll_size := (h, v) }
  | 0x11 =>
    pure (update_window_position
      { self with window_values := (data, self.window_values.2) })
  | 0x12 =>
    pure (update_window_position
      { self with window_values := (self.window_values.1, data) })
  | 0x13 =>
    let c := (self.memory.transfer_count &&& 0xFF00) ||| data
    pure { self with memory :=
      { self.memory with transfer_count := c, transfer_remain := c } }
  | 0x14 =>
    let c := (self.memory.transfer_count &&& 0x00FF) ||| (data <<< 8)
    pure { self with memory :=
      { self.memory with transfer_count := c, transfer_remain := c } }
  | 0x15 =>
    pure { self with memory := { self.memory with
      transfer_src_addr := (self.memory.transfer_src_addr &&& 0xFFFE00) ||| (data <<< 1) } }
  | 0x16 =>
    pure { self with memory := { self.memory with
      transfer_src_addr := (self.memory.transfer_src_addr &&& 0xFE01FF) ||| (data <<< 9) } }
  | 0x17 =>
    let mask := if data &&& 0x80 ≠ 0 then 0x7F else 0x3F
    pure { self with memory := { self.memory with
      transfer_bits := data &&& 0xC0,
      transfer_src_addr :=
        (self.memory.transfer_src_addr &&& 0x01FFFF) ||| ((data &&& mask) <<< 17) } }
  | 0x06 => pure self
  | 0x08 => pure self
  | 0x09 => pure self
  | 0x0E => pure self
  | _ => throw Fault.unhandled_register

/-- The value left in `*data` by `ym7101_read`; `data0` is what `*data` held on
entry (`read_data_port` is an empty stub and leaves it alone). -/
def ym7101_read (self : State) (addr size data0 : Nat) : Except Fault Nat :=
  let status_read : Except Fault Nat :=
    if size ≤ 4 ∧ (addr - 0x04) + size ≤ 4 then
      let d := self.status
      let d := (d <<< 16) % 2 ^ 64
      let d := d ||| self.status
      let d := d &&& (0xFFFFFFFF >>> ((addr - 0x04) * 8))
      pure (d >>> (((0x08 - addr) - size) * 8))
    else
      throw Fault.status_read_assert
  let counter_read : Except Fault Nat :=
    let d := (self.current_y % 0x100).toNat
    if size > 1 then
      pure (((d <<< 8) % 2 ^ 64) ||| ((self.current_y / 2) % 0x100).toNat)
    else
      pure d
  match addr with
  | 0x00 => pure data0
  | 0x02 => pure data0
  | 0x04 => status_read
  | 0x05 => status_read
  | 0x06 => status_read
  | 0x07 => status_read
  | 0x08 => counter_read
  | 0x0A => counter_read
  | _ => throw Fault.unhandled_ym7101_read

def ym7101_write (sizeof_target : Nat) (self : State) (addr value size : Nat) :
    Except Fault State :=
  let data_port : Except Fault State := do
    let m ← write_data_port sizeof_target self.memory (value % 2 ^ 32) size
    pure { self with memory := m }
  let control_port : Except Fault State :=
    let is_reg := ((if size = 2 then value else value >>> 16) &&& 0xC000) = 0x8000
    if is_reg then
      if size = 2 then
        set_register self (value % 0x10000)
      else do
        let s1 ← set_register self ((value >>> 16) % 0x10000)
        let value := value &&& 0xffff
        if value &&& 0xC000 = 0x8000 then
          set_register s1 (value % 0x10000)
        else
          throw Fault.unexpected_second_byte
    else do
      let m ← write_control_port self.memory (value % 2 ^ 32) size
      let flags := if m.transfer_dma_busy then DMA_BUSY else 0
      pure { self with memory := m, status := (self.status &&& 0xFFFD) ||| flags }
  match addr with
  | 0x00 => data_port
  | 0x02 => data_port
  | 0x04 => control_port
  | 0x06 => control_port
  | 0x11 => pure self
  | 0x12 => pure self
  | 0x13 => pure self
  | 0x14 => pure self
  | 0x15 => pure self
  | 0x16 => pure self
  | _ => throw Fault.unhandled_ym7101_write

/-- The state `ym7101_reset` leaves: `memset` to zero, then the status word. -/
def ym7101_reset : State :=
  { status := 0x3400 ||| FIFO_EMPTY
    memory :=
      { vram := fun _ => 0
        cram := fun _ => 0
        vsram := fun _ => 0
        transfer_type := 0
        transfer_bits := 0
        transfer_count := 0
        transfer_remain := 0
        transfer_src_addr := 0
        transfer_dest_addr := 0
        transfer_auto_inc := 0
        transfer_fill_word := 0
        transfer_run := 0
        transfer_target := 0
        transfer_dma_busy := false
        ctrl_port_buffer := 0
        ctrl_port_set := false }
    mode_1 := 0
    mode_2 := 0
    mode_3 := 0
    mode_4 := 0
    h_int_lines := 0
    screen_size := (0, 0)
    scroll_size := (0, 0)
    window_pos := ((0, 0), (0, 0))
    window_values := (0, 0)
    background := 0
    scroll_a_addr := 0
    scroll_b_addr := 0
    window_addr := 0
    sprites_addr := 0
    hscroll_addr := 0
    h_scanlines := 0
    current_x := 0
    current_y := 0 }

/-- A sequence of port writes `(addr, value, size)`, performed in order; the
first fault ends the run. -/
def run_writes (sizeof_target : Nat) : State → List (Nat × Nat × Nat) → Except Fault State
  | s, [] => pure s
  | s, (addr, value, size) :: rest =>
    match ym7101_write sizeof_target s addr value size with
    | .ok s1 => run_writes sizeof_target s1 rest
    | .error e => .error e

/-- A sequence of register words handed to `set_register` in order; the first
fault ends the run. -/
def set_registers : State → List Nat → Except Fault State
  | s, [] => pure s
  | s, w :: rest =>
    match set_register s w with
    | .ok s1 => set_registers s1 rest
    | .error e => .error e

/-- Spec side of the status read-back, to be compared with `ym7101_read`: the
four bytes of the control-port window, the status word twice, high byte
first. -/
def spec_status_bytes (st : Nat) : List Nat :=
  [(st >>> 8) &&& 0xFF, st &&& 0xFF, (st >>> 8) &&& 0xFF, st &&& 0xFF]

/-- Spec side of the status read-back: the big-endian integer formed by a list
of bytes. -/
def spec_big_endian (bytes : List Nat) : Nat :=
  bytes.foldl (fun acc b => acc * 256 + b) 0

/-- The function `ym7101_reset` as a step on the state it is handed: `memset`
overwrites every field with zero, then the status word is assigned. -/
def ym7101_reset_step (_self : State) : State :=
  let zeroed : State :=
    { status := 0
      memory :=
        { vram := fun _ => 0
          cram := fun _ => 0
          vsram := fun _ => 0
          transfer_type := 0
          transfer_bits := 0
          transfer_count := 0
          transfer_remain := 0
          transfer_src_addr := 0
          transfer_dest_addr := 0
          transfer_auto_inc := 0
          transfer_fill_word := 0
          transfer_run := 0
          transfer_target := 0
          transfer_dma_busy := false
          ctrl_port_buffer := 0
          ctrl_port_set := false }
      mode_1 := 0
      mode_2 := 0
      mode_3 := 0
      mode_4 := 0
      h_int_lines := 0
      screen_size := (0, 0)
      scroll_size := (0, 0)
      window_pos := ((0, 0), (0, 0))
      window_values := (0, 0)
      background := 0
      scroll_a_addr := 0
      scroll_b_addr := 0
      window_addr := 0
      sprites_addr := 0
      hscroll_addr := 0
      h_scanlines := 0
      current_x := 0
      current_y := 0 }
  { zeroed with status := 0x3400 ||| FIFO_EMPTY }

/-- Spec side of "a transfer setup completes": the port write is a control-port
write that is not a register write and that reaches the call of
`setup_transfer`, as the second 16-bit word of a pair or as a 32-bit write into
an empty latch. -/
def spec_completes_setup (s : State) (addr value size : Nat) : Bool :=
  (addr == 0x04 || addr == 0x06) &&
  !(((if size = 2 then value else value >>> 16) &&& 0xC000) == 0x8000) &&
  ((size == 2 && s.memory.ctrl_port_set) || (size == 4 && !s.memory.ctrl_port_set))

/-- Spec side of "the transfer setups completed since reset": the number of
writes of a run of `run_writes` that complete a transfer setup. -/
def spec_setup_count (sizeof_target : Nat) : State → List (Nat × Nat × Nat) → Nat
  | _, [] => 0
  | s, (addr, value, size) :: rest =>
    match ym7101_write sizeof_target s addr value size with
    | .ok s1 =>
      (if spec_completes_setup s addr value size then 1 else 0) +
        spec_setup_count sizeof_target s1 rest
    | .error _ => 0

/-! ## Bit-field lemmas -/

theorem mask_shiftRight_first (x : Nat) : (x &&& 0xC000) >>> 14 = (x >>> 14) &&& 3 := by
  apply Nat.eq_of_testBit_eq
  intro i
  have h : (0xC000 : Nat) = 3 <<< 14 := by decide
  rw [h]
  simp only [Nat.testBit_shiftRight, Nat.testBit_and, Nat.testBit_shiftLeft]
  simp

theorem mask_shiftRight_second (x : Nat) : (x &&& 0x00F0) >>> 2 = (x >>> 2) &&& 0x3C := by
  apply Nat.eq_of_testBit_eq
  intro i
  have h : (0x00F0 : Nat) = 0x3C <<< 2 := by decide
  rw [h]
  simp only [Nat.testBit_shiftRight, Nat.testBit_and, Nat.testBit_shiftLeft]
  simp

theorem decoded_type_lt (first second : Nat) :
    ((first >>> 14) &&& 3) ||| ((second >>> 2) &&& 0x3C) < 64 := by
  have h1 : (first >>> 14) &&& 3 < 2 ^ 6 := Nat.and_lt_two_pow _ (by decide)
  have h2 : (second >>> 2) &&& 0x3C < 2 ^ 6 := Nat.and_lt_two_pow _ (by decide)
  exact Nat.or_lt_two_pow h1 h2

theorem decoded_dest_lt (first second : Nat) :
    (first &&& 0x3FFF) ||| ((second &&& 0x0003) <<< 14) < 2 ^ 16 := by
  have h1 : first &&& 0x3FFF < 2 ^ 16 := Nat.and_lt_two_pow _ (by decide)
  have h2 : (second &&& 0x0003) <<< 14 < 2 ^ (2 + 14) :=
    Nat.shiftLeft_lt (Nat.and_lt_two_pow _ (by decide))
  exact Nat.or_lt_two_pow h1 h2

/-! ## What `setup_transfer` does to each field -/

theorem setup_transfer_type (self : Memory) (first second : Nat) :
    (setup_transfer self first second).transfer_type =
      (((first &&& 0xC000) >>> 14) ||| ((second &&& 0x00F0) >>> 2)) % 0x100 := by
  unfold setup_transfer
  simp only []
  split <;> split <;> (try split) <;> (try split) <;> rfl

theorem setup_transfer_dest (self : Memory) (first second : Nat) :
    (setup_transfer self first second).transfer_dest_addr =
      (first &&& 0x3FFF) ||| ((second &&& 0x0003) <<< 14) := by
  unfold setup_transfer
  simp only []
  split <;> split <;> (try split) <;> (try split) <;> rfl

theorem setup_transfer_target (self : Memory) (first second : Nat) :
    (setup_transfer self first second).transfer_target =
      if (setup_transfer self first second).transfer_type &&& 0x0E = 0 then MEMORY_VRAM
      else if (setup_transfer self first second).transfer_type &&& 0x0E = 4 then MEMORY_VSRAM
      else MEMORY_CRAM := by
  rw [setup_transfer_type]
  unfold setup_transfer
  simp only []
  split <;> split <;> (try split) <;> (try split) <;>
    simp_all [set_dma_mode, DMA_TYPE_COPY, DMA_TYPE_MEMORY]

theorem setup_transfer_arming (self : Memory) (first second : Nat) :
    ((setup_transfer self first second).transfer_run,
      (setup_transfer self first second).transfer_dma_busy) =
      if (setup_transfer self first second).transfer_type &&& 0x20 ≠ 0 then
        if (setup_transfer self first second).transfer_type &&& 0x10 ≠ 0 then
          (DMA_TYPE_COPY, true)
        else if self.transfer_bits &&& 0x80 = 0 then (DMA_TYPE_MEMORY, true)
        else (self.transfer_run, self.transfer_dma_busy)
      else (self.transfer_run, self.transfer_dma_busy) := by
  rw [setup_transfer_type]
  unfold setup_transfer
  simp only []
  split <;> split <;> (try split) <;> (try split) <;>
    simp_all [set_dma_mode, DMA_TYPE_COPY, DMA_TYPE_MEMORY]

theorem setup_transfer_latch (self : Memory) (first second : Nat) :
    (setup_transfer self first second).ctrl_port_set = self.ctrl_port_set ∧
    (setup_transfer self first second).ctrl_port_buffer = 0 := by
  unfold setup_transfer
  simp only []
  split <;> split <;> (try split) <;> (try split) <;> exact ⟨rfl, rfl⟩

theorem setup_transfer_frame (self : Memory) (first second : Nat) :
    (setup_transfer self first second).vram = self.vram ∧
    (setup_transfer self first second).cram = self.cram ∧
    (setup_transfer self first second).vsram = self.vsram ∧
    (setup_transfer self first second).transfer_bits = self.transfer_bits ∧
    (setup_transfer self first second).transfer_count = self.transfer_count ∧
    (setup_transfer self first second).transfer_remain = self.transfer_remain ∧
    (setup_transfer self first second).transfer_src_addr = self.transfer_src_addr ∧
    (setup_transfer self first second).transfer_auto_inc = self.transfer_auto_inc ∧
    (setup_transfer self first second).transfer_fill_word = self.transfer_fill_word := by
  unfold setup_transfer
  simp only []
  split <;> split <;> (try split) <;> (try split) <;>
    exact ⟨rfl, rfl, rfl, rfl, rfl, rfl, rfl, rfl, rfl⟩

/-! ## Port writes, one step at a time -/

theorem run_writes_cons_ok (p : Nat) (s s1 : State) (addr value size : Nat)
    (rest : List (Nat × Nat × Nat)) (h : ym7101_write p s addr value size = .ok s1) :
    run_writes p s ((addr, value, size) :: rest) = run_writes p s1 rest := by
  simp [run_writes, h]

/-- A 16-bit control-port write of a non-register word into an empty latch
buffers the word. -/
theorem ym7101_write_first_word (p : Nat) (self : State) (w addr : Nat)
    (hset : self.memory.ctrl_port_set = false)
    (hw : w < 0x10000) (hreg : w &&& 0xC000 ≠ 0x8000) (haddr : addr = 0x04 ∨ addr = 0x06) :
    ym7101_write p self addr w 2 = .ok
      { self with
        memory := { self.memory with ctrl_port_set := true, ctrl_port_buffer := w }
        status := (self.status &&& 0xFFFD) |||
          (if self.memory.transfer_dma_busy then DMA_BUSY else 0) } := by
  have hw32 : w % 4294967296 = w := Nat.mod_eq_of_lt (by omega)
  have hw16 : w % 65536 = w := Nat.mod_eq_of_lt hw
  rcases haddr with rfl | rfl <;>
    simp [ym7101_write, write_control_port, hreg, hset, hw32, hw16] <;> rfl

/-- A 16-bit control-port write of a non-register word while a first word is
buffered runs `setup_transfer` on the buffered word and the new one. -/
theorem ym7101_write_second_word (p : Nat) (self : State) (first w addr : Nat)
    (hset : self.memory.ctrl_port_set = true) (hbuf : self.memory.ctrl_port_buffer = first)
    (hw : w < 0x10000) (hreg : w &&& 0xC000 ≠ 0x8000) (haddr : addr = 0x04 ∨ addr = 0x06) :
    ym7101_write p self addr w 2 = .ok
      { self with
        memory := setup_transfer self.memory first w
        status := (self.status &&& 0xFFFD) |||
          (if (setup_transfer self.memory first w).transfer_dma_busy then DMA_BUSY else 0) } := by
  have hw32 : w % 4294967296 = w := Nat.mod_eq_of_lt (by omega)
  have hw16 : w % 65536 = w := Nat.mod_eq_of_lt hw
  rcases haddr with rfl | rfl <;>
    simp [ym7101_write, write_control_port, hreg, hset, hbuf, hw32, hw16] <;> rfl

/-! ## Data-port writes -/

theorem put_frame (m : Memory) (t : Bank) (i v : Nat) :
    (m.put t i v).transfer_dest_addr = m.transfer_dest_addr ∧
    (m.put t i v).transfer_auto_inc = m.transfer_auto_inc ∧
    (m.put t i v).transfer_type = m.transfer_type ∧
    (m.put t i v).transfer_target = m.transfer_target := by
  cases t <;> exact ⟨rfl, rfl, rfl, rfl⟩

theorem put_bank (m : Memory) (t : Bank) (i v j : Nat) :
    (m.put t i v).bank t j = if j = i then v else m.bank t j := by
  cases t <;> rfl

/-- A 1-byte data-port write outside fill mode stores the low byte of the value
at index `transfer_dest_addr % sizeof_target` of the target array and adds the
auto-increment to the destination address. -/
theorem write_data_port_byte (p : Nat) (m : Memory) (v : Nat) (t : Bank)
    (hfill : m.transfer_type &&& 0x30 ≠ 0x20) (ht : get_transfer_target m = .ok t)
    (h0 : m.transfer_dest_addr % p < t.size) :
    write_data_port p m v 1 = .ok
      { m.put t (m.transfer_dest_addr % p) (v &&& 0xFF) with
        transfer_dest_addr := (m.transfer_dest_addr + m.transfer_auto_inc) % 2 ^ 32 } := by
  unfold write_data_port
  rw [if_neg hfill, ht]
  simp [write_data_loop, extract32, Memory.store, h0, bind, Except.bind, pure, Except.pure,
    put_frame]

/-- A 2-byte data-port write outside fill mode stores the high byte, then the
low byte, at indices `(transfer_dest_addr + i) % sizeof_target`, `i = 0, 1`. -/
theorem write_data_port_word (p : Nat) (m : Memory) (v : Nat) (t : Bank)
    (hfill : m.transfer_type &&& 0x30 ≠ 0x20) (ht : get_transfer_target m = .ok t)
    (h0 : m.transfer_dest_addr % p < t.size) (h1 : (m.transfer_dest_addr + 1) % p < t.size) :
    write_data_port p m v 2 = .ok
      { (m.put t (m.transfer_dest_addr % p) ((v >>> 8) &&& 0xFF)).put t
          ((m.transfer_dest_addr + 1) % p) (v &&& 0xFF) with
        transfer_dest_addr := (m.transfer_dest_addr + m.transfer_auto_inc) % 2 ^ 32 } := by
  unfold write_data_port
  rw [if_neg hfill, ht]
  simp [write_data_loop, extract32, Memory.store, h0, h1, bind, Except.bind, pure, Except.pure,
    put_frame]

theorem write_data_port_word_fields (p : Nat) (m : Memory) (v : Nat) (t : Bank)
    (hfill : m.transfer_type &&& 0x30 ≠ 0x20) (ht : get_transfer_target m = .ok t)
    (h0 : m.transfer_dest_addr % p < t.size) (h1 : (m.transfer_dest_addr + 1) % p < t.size) :
    ∃ m1, write_data_port p m v 2 = .ok m1 ∧
      m1.transfer_type = m.transfer_type ∧
      m1.transfer_target = m.transfer_target ∧
      m1.transfer_auto_inc = m.transfer_auto_inc ∧
      m1.transfer_dest_addr = (m.transfer_dest_addr + m.transfer_auto_inc) % 2 ^ 32 ∧
      ∀ j, m1.bank t j =
        if j = (m.transfer_dest_addr + 1) % p then v &&& 0xFF
        else if j = m.transfer_dest_addr % p then (v >>> 8) &&& 0xFF
        else m.bank t j := by
  refine ⟨_, write_data_port_word p m v t hfill ht h0 h1, ?_, ?_, ?_, rfl, ?_⟩
  · simp [put_frame]
  · simp [put_frame]
  · simp [put_frame]
  · intro j
    cases t <;> rfl

/-- A data-port write of at most 4 bytes in fill mode latches the fill word and
sets the DMA mode to FILL; it writes no byte and moves no address. -/
theorem write_data_port_fill (p : Nat) (m : Memory) (v size : Nat)
    (hfill : m.transfer_type &&& 0x30 = 0x20) (hsize : size ≤ 4) :
    write_data_port p m v size = .ok
      { m with
        ctrl_port_set := false
        transfer_fill_word := if size = 2 then v % 0x10000 else v &&& 0xff
        transfer_dma_busy := true
        transfer_run := DMA_TYPE_FILL } := by
  unfold write_data_port
  rw [if_pos hfill, if_pos hsize]
  rfl

theorem run_writes_one (p : Nat) (s s1 : State) (addr value size : Nat)
    (h : ym7101_write p s addr value size = .ok s1) :
    run_writes p s [(addr, value, size)] = .ok s1 := by
  simp [run_writes, h, pure, Except.pure]

theorem ym7101_write_data (p : Nat) (s : State) (m : Memory) (addr value size : Nat)
    (haddr : addr = 0x00 ∨ addr = 0x02)
    (h : write_data_port p s.memory (value % 2 ^ 32) size = .ok m) :
    ym7101_write p s addr value size = .ok { s with memory := m } := by
  rcases haddr with rfl | rfl <;>
    simp only [ym7101_write, h, bind, Except.bind, pure, Except.pure]

/-! ## Data-port claims -/

/-- C1, the code at a failing input. After the control pair `0x4008`, `0x0000`
the target is pattern memory (VRAM), the destination address is 8 and the
transfer type is non-fill. A 1-byte data-port write of `0x55` then stores the
byte at index `8 % sizeof(target)`, which is 0 for an 8-byte and for a 4-byte
pointer, and leaves index `8 % 65536 = 8` of VRAM as it was. -/
theorem data_write_byte_index_is_mod_pointer_size :
    (∃ s0 s, run_writes 8 ym7101_reset [(0x04, 0x4008, 2), (0x04, 0x0000, 2)] = .ok s0 ∧
      get_transfer_target s0.memory = .ok Bank.vram ∧
      s0.memory.transfer_dest_addr = 8 ∧
      s0.memory.transfer_type &&& 0x30 ≠ 0x20 ∧
      ym7101_write 8 s0 0x00 0x55 1 = .ok s ∧
      s.memory.bank Bank.vram (8 % Bank.vram.size) = 0 ∧
      s.memory.bank Bank.vram 0 = 0x55) ∧
    (∃ s0 s, run_writes 4 ym7101_reset [(0x04, 0x4008, 2), (0x04, 0x0000, 2)] = .ok s0 ∧
      get_transfer_target s0.memory = .ok Bank.vram ∧
      s0.memory.transfer_dest_addr = 8 ∧
      s0.memory.transfer_type &&& 0x30 ≠ 0x20 ∧
      ym7101_write 4 s0 0x00 0x55 1 = .ok s ∧
      s.memory.bank Bank.vram (8 % Bank.vram.size) = 0 ∧
      s.memory.bank Bank.vram 0 = 0x55) :=
  ⟨⟨_, _, rfl, rfl, rfl, by decide, rfl, rfl, rfl⟩,
   ⟨_, _, rfl, rfl, rfl, by decide, rfl, rfl, rfl⟩⟩

/-- C2, the code at a failing input. With auto-increment 9 (register word
`0x8F09`) and the control pair `0xC07F`, `0x0000` the target is palette memory
(CRAM, 128 bytes) and the destination address is `127 = size - 1`. After a
1-byte data-port write the destination address is `136`; the next 1-byte write
of `0x22` lands at index `136 % sizeof(target) = 0`, and index
`(127 + 9) % 128 = 8` of CRAM is left as it was. -/
theorem data_write_wraps_at_pointer_size :
    ∃ s0 s1 s2,
      run_writes 8 ym7101_reset [(0x04, 0x8F09, 2), (0x04, 0xC07F, 2), (0x04, 0x0000, 2)]
        = .ok s0 ∧
      get_transfer_target s0.memory = .ok Bank.cram ∧
      s0.memory.transfer_dest_addr = Bank.cram.size - 1 ∧
      s0.memory.transfer_auto_inc = 9 ∧
      ym7101_write 8 s0 0x00 0x11 1 = .ok s1 ∧
      s1.memory.transfer_dest_addr = 127 + 9 ∧
      ym7101_write 8 s1 0x00 0x22 1 = .ok s2 ∧
      s2.memory.bank Bank.cram ((127 + 9) % Bank.cram.size) = 0 ∧
      s2.memory.bank Bank.cram ((127 + 9) % 8) = 0x22 :=
  ⟨_, _, _, rfl, rfl, rfl, rfl, rfl, rfl, rfl, rfl, rfl⟩

/-! ## Scenarios from reset -/

/-- C3, as the code has it: from the reset state, the 16-bit control-port
writes `0x4000` and `0x0000` at offset `0x04` leave `transfer_type = 1` (bits
15..14 of the first word), target pattern memory (VRAM) and
`transfer_dest_addr = 0x0000`. -/
theorem ctrl_pair_4000_0000_decodes_type_one (p : Nat) :
    ∃ s, run_writes p ym7101_reset [(0x04, 0x4000, 2), (0x04, 0x0000, 2)] = .ok s ∧
      s.memory.transfer_type = 1 ∧
      s.memory.transfer_target = MEMORY_VRAM ∧
      get_transfer_target s.memory = .ok Bank.vram ∧
      s.memory.transfer_dest_addr = 0x0000 :=
  ⟨_, rfl, rfl, rfl, rfl, rfl⟩

/-- C3, counterexample: after the control-port writes `0x4000`, `0x0000` from
reset the transfer type is not 0. -/
theorem ctrl_pair_4000_0000_type_not_zero :
    ∃ s, run_writes 8 ym7101_reset [(0x04, 0x4000, 2), (0x04, 0x0000, 2)] = .ok s ∧
      s.memory.transfer_type ≠ 0 :=
  ⟨_, rfl, by decide⟩

/-- C4, as the code has it: from reset, after DMA length 4 (register words
`0x9304`, `0x9400`), a control pair of two non-register words whose decoded
`transfer_type` has `& 0x30 == 0x20`, and a 16-bit data-port write of `0xABCD`,
the fill is armed and not run: the DMA mode is FILL, the busy flag is set, the
fill word is `0xABCD`, `transfer_remain` is still 4 and every byte of the three
arrays is still zero. -/
theorem fill_write_arms_without_filling (p first second : Nat)
    (hf : first < 0x10000) (hs : second < 0x10000)
    (hfreg : first &&& 0xC000 ≠ 0x8000) (hsreg : second &&& 0xC000 ≠ 0x8000)
    (hty : (setup_transfer ym7101_reset.memory first second).transfer_type &&& 0x30 = 0x20) :
    ∃ s, run_writes p ym7101_reset
        [(0x04, 0x9304, 2), (0x04, 0x9400, 2), (0x04, first, 2), (0x04, second, 2),
         (0x00, 0xABCD, 2)] = .ok s ∧
      s.memory.transfer_run = DMA_TYPE_FILL ∧
      s.memory.transfer_dma_busy = true ∧
      s.memory.transfer_fill_word = 0xABCD ∧
      s.memory.transfer_remain = 4 ∧
      (∀ j, s.memory.vram j = 0) ∧ (∀ j, s.memory.cram j = 0) ∧ (∀ j, s.memory.vsram j = 0) := by
  obtain ⟨sA, hrun, hsetA, hremA, hvA, hcA, hsA⟩ : ∃ sA,
      (∀ rest, run_writes p ym7101_reset ((0x04, 0x9304, 2) :: (0x04, 0x9400, 2) :: rest)
        = run_writes p sA rest) ∧
      sA.memory.ctrl_port_set = false ∧ sA.memory.transfer_remain = 4 ∧
      (∀ j, sA.memory.vram j = 0) ∧ (∀ j, sA.memory.cram j = 0) ∧
      (∀ j, sA.memory.vsram j = 0) :=
    ⟨_, fun _ => rfl, rfl, rfl, fun _ => rfl, fun _ => rfl, fun _ => rfl⟩
  obtain ⟨sB, h3, hmB⟩ : ∃ sB, ym7101_write p sA 0x04 first 2 = .ok sB ∧
      sB.memory = { sA.memory with ctrl_port_set := true, ctrl_port_buffer := first } :=
    ⟨_, ym7101_write_first_word p sA first 0x04 hsetA hf hfreg (Or.inl rfl), rfl⟩
  obtain ⟨sC, h4, hmC⟩ : ∃ sC, ym7101_write p sB 0x04 second 2 = .ok sC ∧
      sC.memory = setup_transfer sB.memory first second :=
    ⟨_, ym7101_write_second_word p sB first second 0x04 (by rw [hmB]) (by rw [hmB])
      hs hsreg (Or.inl rfl), rfl⟩
  rw [setup_transfer_type] at hty
  obtain ⟨sD, h5, hmD⟩ : ∃ sD, ym7101_write p sC 0x00 0xABCD 2 = .ok sD ∧
      sD.memory = { sC.memory with
        ctrl_port_set := false
        transfer_fill_word := 0xABCD
        transfer_dma_busy := true
        transfer_run := DMA_TYPE_FILL } :=
    ⟨_, ym7101_write_data p sC _ 0x00 0xABCD 2 (Or.inl rfl)
      (write_data_port_fill p sC.memory _ 2 (by rw [hmC, setup_transfer_type]; exact hty)
        (by decide)), rfl⟩
  obtain ⟨fv, fc, fs, -, -, frem, -, -, -⟩ := setup_transfer_frame sB.memory first second
  refine ⟨sD, ?_, ?_, ?_, ?_, ?_, ?_, ?_, ?_⟩
  · rw [hrun, run_writes_cons_ok p _ _ _ _ _ _ h3, run_writes_cons_ok p _ _ _ _ _ _ h4]
    exact run_writes_one p _ _ _ _ _ h5
  · rw [hmD]
  · rw [hmD]
  · rw [hmD]
  · rw [hmD]
    show sC.memory.transfer_remain = 4
    rw [hmC, frem, hmB]; exact hremA
  · intro j
    rw [hmD]
    show sC.memory.vram j = 0
    rw [hmC, fv, hmB]; exact hvA j
  · intro j
    rw [hmD]
    show sC.memory.cram j = 0
    rw [hmC, fc, hmB]; exact hcA j
  · intro j
    rw [hmD]
    show sC.memory.vsram j = 0
    rw [hmC, fs, hmB]; exact hsA j

/-- C4, witness: the control pair `0x4000`, `0x0080` decodes to transfer type
`0x21`, and the fill write after it only arms the fill. -/
theorem fill_write_arms_without_filling_witness :
    (0x4000 < 0x10000 ∧ 0x0080 < 0x10000 ∧ 0x4000 &&& 0xC000 ≠ 0x8000 ∧
      0x0080 &&& 0xC000 ≠ 0x8000 ∧
      (setup_transfer ym7101_reset.memory 0x4000 0x0080).transfer_type &&& 0x30 = 0x20) ∧
    ∃ s, run_writes 8 ym7101_reset
        [(0x04, 0x9304, 2), (0x04, 0x9400, 2), (0x04, 0x4000, 2), (0x04, 0x0080, 2),
         (0x00, 0xABCD, 2)] = .ok s ∧
      s.memory.transfer_run = DMA_TYPE_FILL ∧
      s.memory.transfer_dma_busy = true ∧
      s.memory.transfer_fill_word = 0xABCD ∧
      s.memory.transfer_remain = 4 ∧
      (∀ j, s.memory.vram j = 0) ∧ (∀ j, s.memory.cram j = 0) ∧ (∀ j, s.memory.vsram j = 0) :=
  ⟨⟨by decide, by decide, by decide, by decide, by decide⟩,
   fill_write_arms_without_filling 8 0x4000 0x0080
     (by decide) (by decide) (by decide) (by decide) (by decide)⟩

/-- C4, counterexample: with the control pair `0x4000`, `0x0080` (transfer type
`0x21`, so `& 0x30 == 0x20`) and DMA length 4, after the 16-bit data-port write
of `0xABCD` the remaining count is not 0, the DMA mode is not NONE, the busy
flag is not clear and the destination cell of VRAM does not hold a fill
byte. -/
theorem fill_write_does_not_complete :
    ∃ s, run_writes 8 ym7101_reset
        [(0x04, 0x9304, 2), (0x04, 0x9400, 2), (0x04, 0x4000, 2), (0x04, 0x0080, 2),
         (0x00, 0xABCD, 2)] = .ok s ∧
      s.memory.transfer_type &&& 0x30 = 0x20 ∧
      s.memory.transfer_remain ≠ 0 ∧
      s.memory.transfer_run ≠ DMA_TYPE_NONE ∧
      s.memory.transfer_dma_busy ≠ false ∧
      s.memory.transfer_dest_addr = 0 ∧
      s.memory.vram 0 ≠ 0xAB ∧ s.memory.vram 0 ≠ 0xCD :=
  ⟨_, rfl, by decide, by decide, by decide, by decide, rfl, by decide, by decide⟩

/-- C5, as the code has it: from reset, after the control-port writes `0x8F02`,
`0x8210`, the pair `0x0000`, `0x0000` and the 16-bit data-port writes `0xAAAA`
then `0xBBBB`, the pattern-memory bytes at indices 0, 1, 2, 3 are AA, AA, BB,
BB: each word is stored high byte first and the address advances by 2 between
the words. (Indices 0 to 3 are below the pointer size of every host.) -/
theorem end_to_end_pattern_bytes (p : Nat) (hp : 4 ≤ p) :
    ∃ s, run_writes p ym7101_reset
        [(0x04, 0x8F02, 2), (0x04, 0x8210, 2), (0x04, 0x0000, 2), (0x04, 0x0000, 2),
         (0x00, 0xAAAA, 2), (0x00, 0xBBBB, 2)] = .ok s ∧
      s.memory.vram 0 = 0xAA ∧ s.memory.vram 1 = 0xAA ∧
      s.memory.vram 2 = 0xBB ∧ s.memory.vram 3 = 0xBB := by
  obtain ⟨sA, hrun, hty, htg, hd, hinc, hv⟩ : ∃ sA, (∀ rest, run_writes p ym7101_reset
        ((0x04, 0x8F02, 2) :: (0x04, 0x8210, 2) :: (0x04, 0x0000, 2) :: (0x04, 0x0000, 2) :: rest)
          = run_writes p sA rest) ∧
      sA.memory.transfer_type = 0 ∧ sA.memory.transfer_target = MEMORY_VRAM ∧
      sA.memory.transfer_dest_addr = 0 ∧ sA.memory.transfer_auto_inc = 2 ∧
      ∀ j, sA.memory.vram j = 0 :=
    ⟨_, fun _ => rfl, rfl, rfl, rfl, rfl, fun _ => rfl⟩
  have e0 : 0 % p = 0 := Nat.zero_mod p
  have e1 : 1 % p = 1 := Nat.mod_eq_of_lt (by omega)
  have e2 : 2 % p = 2 := Nat.mod_eq_of_lt (by omega)
  have e3 : 3 % p = 3 := Nat.mod_eq_of_lt (by omega)
  obtain ⟨mB, hB, htyB, htgB, -, hdB, hbB⟩ :=
    write_data_port_word_fields p sA.memory 0xAAAA Bank.vram (by rw [hty]; decide)
      (by unfold get_transfer_target; rw [htg]; rfl)
      (by rw [hd, e0]; decide) (by rw [hd, e1]; decide)
  rw [hd, hinc] at hdB
  obtain ⟨mC, hC, -, -, -, -, hbC⟩ :=
    write_data_port_word_fields p mB 0xBBBB Bank.vram (by rw [htyB, hty]; decide)
      (by unfold get_transfer_target; rw [htgB, htg]; rfl)
      (by rw [hdB]; simp [e2]; decide) (by rw [hdB]; simp [e3]; decide)
  have h5 := ym7101_write_data p sA mB 0x00 0xAAAA 2 (Or.inl rfl) hB
  have h6 := ym7101_write_data p { sA with memory := mB } mC 0x00 0xBBBB 2 (Or.inl rfl) hC
  simp only [Memory.bank] at hbB hbC
  have hfinal : run_writes p ym7101_reset
      [(0x04, 0x8F02, 2), (0x04, 0x8210, 2), (0x04, 0x0000, 2), (0x04, 0x0000, 2),
       (0x00, 0xAAAA, 2), (0x00, 0xBBBB, 2)]
        = .ok { ({ sA with memory := mB } : State) with memory := mC } := by
    rw [hrun, run_writes_cons_ok p _ _ _ _ _ _ h5]
    exact run_writes_one p _ _ _ _ _ h6
  refine ⟨_, hfinal, ?_, ?_, ?_, ?_⟩
  all_goals
    show mC.vram _ = _
    simp [hbC, hbB, hdB, hd, e0, e1, e2, e3, hv]
    try decide

/-- C5, witness: an 8-byte pointer. -/
theorem end_to_end_pattern_bytes_witness :
    4 ≤ 8 ∧
    ∃ s, run_writes 8 ym7101_reset
        [(0x04, 0x8F02, 2), (0x04, 0x8210, 2), (0x04, 0x0000, 2), (0x04, 0x0000, 2),
         (0x00, 0xAAAA, 2), (0x00, 0xBBBB, 2)] = .ok s ∧
      s.memory.vram 0 = 0xAA ∧ s.memory.vram 1 = 0xAA ∧
      s.memory.vram 2 = 0xBB ∧ s.memory.vram 3 = 0xBB :=
  ⟨by decide, end_to_end_pattern_bytes 8 (by decide)⟩

/-- C5, counterexample: after the scenario the pattern-memory bytes at indices
1 and 2 are not BB and AA. -/
theorem end_to_end_not_interleaved :
    ∃ s, run_writes 8 ym7101_reset
        [(0x04, 0x8F02, 2), (0x04, 0x8210, 2), (0x04, 0x0000, 2), (0x04, 0x0000, 2),
         (0x00, 0xAAAA, 2), (0x00, 0xBBBB, 2)] = .ok s ∧
      s.memory.vram 1 ≠ 0xBB ∧ s.memory.vram 2 ≠ 0xAA :=
  ⟨_, rfl, by decide, by decide⟩

/-! ## Setup-word decode -/

/-- C6, as the code has it: for all words `first` and `second`, `setup_transfer`
sets `transfer_type` to `((first >> 14) & 0b11) | ((second >> 2) & 0b111100)`,
a 6-bit value made of the 2-bit field in bits 15..14 of `first` and the 4-bit
field in bits 7..4 of `second`. -/
theorem setup_transfer_type_six_bit (self : Memory) (first second : Nat) :
    (setup_transfer self first second).transfer_type =
        ((first >>> 14) &&& 0b11) ||| ((second >>> 2) &&& 0b111100) ∧
    (setup_transfer self first second).transfer_type < 2 ^ 6 := by
  have hlt := decoded_type_lt first second
  rw [setup_transfer_type, mask_shiftRight_first, mask_shiftRight_second]
  have h256 : ((first >>> 14) &&& 3) ||| ((second >>> 2) &&& 0x3C) < 0x100 := by omega
  rw [Nat.mod_eq_of_lt h256]
  exact ⟨rfl, hlt⟩

/-- C6, counterexample to the 4-bit formula of the claim: for `first = 0` and
`second = 0x0080` the claim's formula `((first >> 14) & 0b11) | ((second >> 4) &
0b1100)` gives 8, while `setup_transfer` sets `transfer_type` to 0x20. -/
theorem setup_transfer_type_not_four_bit :
    (setup_transfer ym7101_reset.memory 0 0x0080).transfer_type ≠
      ((0 >>> 14) &&& 0b11) ||| ((0x0080 >>> 4) &&& 0b1100) := by
  decide

/-- C7: for all words `first` and `second`, `setup_transfer` sets
`transfer_dest_addr` to `(first & 0x3FFF) | ((second & 0x3) << 14)`, which is
below `2^16`, and selects the target from the new `transfer_type`:
`(transfer_type & 0xE) == 0` selects pattern memory (VRAM), `== 4` selects
vertical-scroll memory (VSRAM), every other value selects palette memory
(CRAM); `get_transfer_target` then returns the matching array. -/
theorem setup_transfer_dest_and_target (self : Memory) (first second : Nat) :
    (setup_transfer self first second).transfer_dest_addr =
        (first &&& 0x3FFF) ||| ((second &&& 0x3) <<< 14) ∧
    (setup_transfer self first second).transfer_dest_addr < 2 ^ 16 ∧
    (setup_transfer self first second).transfer_target =
        (if (setup_transfer self first second).transfer_type &&& 0xE = 0 then MEMORY_VRAM
         else if (setup_transfer self first second).transfer_type &&& 0xE = 4 then MEMORY_VSRAM
         else MEMORY_CRAM) ∧
    get_transfer_target (setup_transfer self first second) =
        .ok (if (setup_transfer self first second).transfer_type &&& 0xE = 0 then Bank.vram
             else if (setup_transfer self first second).transfer_type &&& 0xE = 4 then Bank.vsram
             else Bank.cram) := by
  refine ⟨setup_transfer_dest self first second, ?_, setup_transfer_target self first second, ?_⟩
  · rw [setup_transfer_dest]
    exact decoded_dest_lt first second
  · unfold get_transfer_target
    rw [setup_transfer_target]
    split_ifs <;> rfl

/-- C8: DMA arming in `setup_transfer`. With `t` the decoded `transfer_type`:
if bits 0x20 and 0x10 of `t` are both set, the DMA mode becomes COPY and busy
becomes true; if bit 0x20 is set, bit 0x10 is clear and bit 0x80 of
`transfer_bits` is clear, the mode becomes MEMORY and busy becomes true; in
every other case mode and busy flag keep their values. `transfer_bits` is what
a write to register 0x17 (DMA address high) captured: the written byte
masked with 0xC0. -/
theorem setup_transfer_dma_arming (self : Memory) (first second : Nat) :
    ((setup_transfer self first second).transfer_type &&& 0x20 ≠ 0 ∧
     (setup_transfer self first second).transfer_type &&& 0x10 ≠ 0 →
        (setup_transfer self first second).transfer_run = DMA_TYPE_COPY ∧
        (setup_transfer self first second).transfer_dma_busy = true) ∧
    ((setup_transfer self first second).transfer_type &&& 0x20 ≠ 0 ∧
     (setup_transfer self first second).transfer_type &&& 0x10 = 0 ∧
     self.transfer_bits &&& 0x80 = 0 →
        (setup_transfer self first second).transfer_run = DMA_TYPE_MEMORY ∧
        (setup_transfer self first second).transfer_dma_busy = true) ∧
    (¬ ((setup_transfer self first second).transfer_type &&& 0x20 ≠ 0 ∧
        (setup_transfer self first second).transfer_type &&& 0x10 ≠ 0) ∧
     ¬ ((setup_transfer self first second).transfer_type &&& 0x20 ≠ 0 ∧
        (setup_transfer self first second).transfer_type &&& 0x10 = 0 ∧
        self.transfer_bits &&& 0x80 = 0) →
        (setup_transfer self first second).transfer_run = self.transfer_run ∧
        (setup_transfer self first second).transfer_dma_busy = self.transfer_dma_busy) ∧
    (∀ (s : State) (v : Nat), (v &&& 0x1F00) >>> 8 = 0x17 →
        ∃ s1, set_register s v = .ok s1 ∧
          s1.memory.transfer_bits = (v &&& 0x00FF) &&& 0xC0) := by
  have h := setup_transfer_arming self first second
  refine ⟨?_, ?_, ?_, ?_⟩
  · rintro ⟨h20, h10⟩
    rw [if_pos h20, if_pos h10] at h
    exact ⟨congrArg Prod.fst h, congrArg Prod.snd h⟩
  · rintro ⟨h20, h10, hb⟩
    rw [if_pos h20, if_neg (not_not.mpr h10), if_pos hb] at h
    exact ⟨congrArg Prod.fst h, congrArg Prod.snd h⟩
  · rintro ⟨hc, hm⟩
    by_cases h20 : (setup_transfer self first second).transfer_type &&& 0x20 ≠ 0
    · have h10 : ¬ (setup_transfer self first second).transfer_type &&& 0x10 ≠ 0 :=
        fun h10 => hc ⟨h20, h10⟩
      have hb : ¬ self.transfer_bits &&& 0x80 = 0 :=
        fun hb => hm ⟨h20, not_not.mp h10, hb⟩
      rw [if_pos h20, if_neg h10, if_neg hb] at h
      exact ⟨congrArg Prod.fst h, congrArg Prod.snd h⟩
    · rw [if_neg h20] at h
      exact ⟨congrArg Prod.fst h, congrArg Prod.snd h⟩
  · intro s v hv
    unfold set_register
    simp only [hv]
    exact ⟨_, rfl, rfl⟩

/-! ## The control latch -/

/-- C9, as the code has it: for every state whose control latch holds a first
word `first` and every 16-bit word `w` that is not a register word
(`(w & 0xC000) != 0x8000`), a 16-bit control-port write of `w` at offset `0x04`
or `0x06` succeeds and performs the transfer setup from `(first, w)`: the
resulting `Memory` is `setup_transfer` of the old one, so `transfer_type`,
`transfer_dest_addr` and the target are those decoded from `first` and `w`. -/
theorem ctrl_write16_completes_pair (p : Nat) (self : State) (first w addr : Nat)
    (hset : self.memory.ctrl_port_set = true) (hbuf : self.memory.ctrl_port_buffer = first)
    (hw : w < 0x10000) (hreg : w &&& 0xC000 ≠ 0x8000) (haddr : addr = 0x04 ∨ addr = 0x06) :
    ∃ s, ym7101_write p self addr w 2 = .ok s ∧
      s.memory = setup_transfer self.memory first w ∧
      s.memory.transfer_type = (setup_transfer self.memory first w).transfer_type ∧
      s.memory.transfer_dest_addr = (setup_transfer self.memory first w).transfer_dest_addr ∧
      s.memory.transfer_target = (setup_transfer self.memory first w).transfer_target :=
  ⟨_, ym7101_write_second_word p self first w addr hset hbuf hw hreg haddr, rfl, rfl, rfl, rfl⟩

/-- C9, witness: the latch holds `0x4000` and the word `0x0000` arrives at
offset `0x04`. -/
theorem ctrl_write16_completes_pair_witness :
    (0x0000 < 0x10000 ∧ 0x0000 &&& 0xC000 ≠ 0x8000) ∧
    ∃ s, ym7101_write 8
        { ym7101_reset with memory :=
            { ym7101_reset.memory with ctrl_port_set := true, ctrl_port_buffer := 0x4000 } }
        0x04 0x0000 2 = .ok s ∧
      s.memory = setup_transfer
        { ym7101_reset.memory with ctrl_port_set := true, ctrl_port_buffer := 0x4000 }
        0x4000 0x0000 ∧
      s.memory.transfer_type = (setup_transfer
        { ym7101_reset.memory with ctrl_port_set := true, ctrl_port_buffer := 0x4000 }
        0x4000 0x0000).transfer_type ∧
      s.memory.transfer_dest_addr = (setup_transfer
        { ym7101_reset.memory with ctrl_port_set := true, ctrl_port_buffer := 0x4000 }
        0x4000 0x0000).transfer_dest_addr ∧
      s.memory.transfer_target = (setup_transfer
        { ym7101_reset.memory with ctrl_port_set := true, ctrl_port_buffer := 0x4000 }
        0x4000 0x0000).transfer_target :=
  ⟨⟨by decide, by decide⟩,
   ctrl_write16_completes_pair 8
     { ym7101_reset with memory :=
         { ym7101_reset.memory with ctrl_port_set := true, ctrl_port_buffer := 0x4000 } }
     0x4000 0x0000 0x04 rfl rfl (by decide) (by decide) (Or.inl rfl)⟩

/-- C9, counterexample: after the control-port write `0x0000` from reset the
latch holds the first word `0x0000`. A 16-bit control-port write of the word
`0x8000` is then taken as a register write (register 0 := 0): the latch is still
set, and the target is not the one `setup_transfer` decodes from
`(0x0000, 0x8000)`. -/
theorem ctrl_write16_register_word_while_pending :
    ∃ s0 s, run_writes 8 ym7101_reset [(0x04, 0x0000, 2)] = .ok s0 ∧
      s0.memory.ctrl_port_set = true ∧ s0.memory.ctrl_port_buffer = 0x0000 ∧
      ym7101_write 8 s0 0x04 0x8000 2 = .ok s ∧
      s.memory.transfer_target ≠ (setup_transfer s0.memory 0x0000 0x8000).transfer_target ∧
      s.memory = s0.memory :=
  ⟨_, _, rfl, rfl, rfl, rfl, by decide, rfl⟩

/-- C10, the code at a failing input. From reset the control-port writes
`0x4000`, `0x0000` complete a pair; afterwards `ctrl_port_set` is still true
(`setup_transfer` clears `ctrl_port_buffer`, not the flag). The next
non-register control write, `0x4002`, is therefore not buffered as a first word
but taken as the second word of the pair `(0, 0x4002)`, which moves the
destination address to `0x8000`. -/
theorem latch_stays_set_after_pair :
    ∃ s s1, run_writes 8 ym7101_reset [(0x04, 0x4000, 2), (0x04, 0x0000, 2)] = .ok s ∧
      s.memory.ctrl_port_set = true ∧
      s.memory.ctrl_port_buffer = 0 ∧
      ym7101_write 8 s 0x04 0x4002 2 = .ok s1 ∧
      s1.memory.ctrl_port_buffer ≠ 0x4002 ∧
      s1.memory = setup_transfer s.memory 0 0x4002 ∧
      s1.memory.transfer_dest_addr = 0x8000 :=
  ⟨_, _, rfl, rfl, rfl, rfl, by decide, rfl, rfl⟩

/-! ## Register writes -/

theorem reg_index_lt (w : Nat) : (w &&& 0x1F00) >>> 8 < 32 := by
  have h : w &&& 0x1F00 ≤ 0x1F00 := Nat.and_le_right
  rw [Nat.shiftRight_eq_div_pow]
  omega

theorem reg_index_eq (w : Nat) : (w &&& 0x1F00) >>> 8 = (w >>> 8) &&& 0x1F := by
  apply Nat.eq_of_testBit_eq
  intro i
  have h : (0x1F00 : Nat) = 0x1F <<< 8 := by decide
  rw [h]
  simp only [Nat.testBit_shiftRight, Nat.testBit_and, Nat.testBit_shiftLeft]
  simp

theorem scroll_code_lt (x : Nat) : x &&& 0x03 < 4 :=
  Nat.and_lt_two_pow x (by decide : 3 < 2 ^ 2)

/-- The effect of `set_register` depends on the word only through the register
index and the data byte. -/
theorem set_register_congr (s : State) (w1 w2 : Nat)
    (hreg : (w1 &&& 0x1F00) >>> 8 = (w2 &&& 0x1F00) >>> 8)
    (hdata : w1 &&& 0x00FF = w2 &&& 0x00FF) :
    set_register s w1 = set_register s w2 := by
  unfold set_register
  simp only [hreg, hdata]

theorem set_register_scroll_size (s : State) (w : Nat) (h : (w &&& 0x1F00) >>> 8 = 0x10) :
    set_register s w =
      (decode_scroll_size ((w &&& 0x00FF) &&& 0x03)).bind fun hs =>
        (decode_scroll_size (((w &&& 0x00FF) >>> 4) &&& 0x03)).bind fun vs =>
          .ok { s with scroll_size := (hs, vs) } := by
  unfold set_register
  simp only [h]
  rfl

theorem decode_scroll_size_cases (c : Nat) (hc : c < 4) :
    (c ≠ 2 → ∃ n, decode_scroll_size c = .ok n) ∧
    (c = 2 → decode_scroll_size c = .error Fault.invalid_scroll_size_option) := by
  interval_cases c <;>
    simp [decode_scroll_size, pure, Except.pure, throw, throwThe, MonadExceptOf.throw]

/-- A register write that succeeds leaves the status word, the control latch,
the transfer type, target, destination, DMA mode, busy flag, fill word and the
three arrays as they were. -/
theorem set_register_frame (s s1 : State) (w : Nat) (h : set_register s w = .ok s1) :
    s1.status = s.status ∧
    s1.memory.ctrl_port_set = s.memory.ctrl_port_set ∧
    s1.memory.ctrl_port_buffer = s.memory.ctrl_port_buffer ∧
    s1.memory.transfer_type = s.memory.transfer_type ∧
    s1.memory.transfer_target = s.memory.transfer_target ∧
    s1.memory.transfer_dest_addr = s.memory.transfer_dest_addr ∧
    s1.memory.transfer_run = s.memory.transfer_run ∧
    s1.memory.transfer_dma_busy = s.memory.transfer_dma_busy ∧
    s1.memory.transfer_fill_word = s.memory.transfer_fill_word ∧
    s1.memory.vram = s.memory.vram ∧
    s1.memory.cram = s.memory.cram ∧
    s1.memory.vsram = s.memory.vsram := by
  have hlt := reg_index_lt w
  generalize hr : (w &&& 0x1F00) >>> 8 = r at hlt
  by_cases h10 : r = 0x10
  · subst h10
    rw [set_register_scroll_size s w hr] at h
    cases h1 : decode_scroll_size ((w &&& 0x00FF) &&& 0x03) with
    | error e => rw [h1] at h; cases h
    | ok a =>
      cases h2 : decode_scroll_size (((w &&& 0x00FF) >>> 4) &&& 0x03) with
      | error e => rw [h1, h2] at h; cases h
      | ok b =>
        rw [h1, h2] at h
        cases h
        exact ⟨rfl, rfl, rfl, rfl, rfl, rfl, rfl, rfl, rfl, rfl, rfl, rfl⟩
  · unfold set_register at h
    simp only [hr] at h
    interval_cases r <;> first
      | exact absurd rfl h10
      | (cases h; exact ⟨rfl, rfl, rfl, rfl, rfl, rfl, rfl, rfl, rfl, rfl, rfl, rfl⟩)
      | cases h

/-- A 16-bit control-port write of a register word is `set_register`. -/
theorem ym7101_write_register_word (p : Nat) (self : State) (w addr : Nat)
    (hw : w < 0x10000) (hreg : w &&& 0xC000 = 0x8000) (haddr : addr = 0x04 ∨ addr = 0x06) :
    ym7101_write p self addr w 2 = set_register self w := by
  have hw16 : w % 65536 = w := Nat.mod_eq_of_lt hw
  rcases haddr with rfl | rfl <;> simp [ym7101_write, hreg, hw16]

/-! ## Bit fields of the DMA length and source address -/


theorem testBit_high {x n j : Nat} (h : x < 2 ^ n) (hj : n ≤ j) : x.testBit j = false :=
  Nat.testBit_lt_two_pow (lt_of_lt_of_le h (Nat.pow_le_pow_right (by decide) hj))

theorem data_lt (w : Nat) : w &&& 0x00FF < 2 ^ 8 :=
  Nat.and_lt_two_pow w (by decide)

theorem count_low_testBit (c d i : Nat) (hd : d < 2 ^ 8) :
    ((c &&& 0xFF00) ||| d).testBit i =
      if i < 8 then d.testBit i else if i < 16 then c.testBit i else false := by
  have hm : (0xFF00 : Nat) = (2 ^ 8 - 1) <<< 8 := by decide
  rw [hm]
  simp only [Nat.testBit_or, Nat.testBit_and, Nat.testBit_shiftLeft, Nat.testBit_two_pow_sub_one]
  split_ifs <;> simp (disch := omega) [decide_eq_false, decide_eq_true, testBit_high hd]

theorem count_high_testBit (c d i : Nat) (hd : d < 2 ^ 8) :
    ((c &&& 0x00FF) ||| (d <<< 8)).testBit i =
      if i < 8 then c.testBit i else if i < 16 then d.testBit (i - 8) else false := by
  have hm : (0x00FF : Nat) = 2 ^ 8 - 1 := by decide
  rw [hm]
  simp only [Nat.testBit_or, Nat.testBit_and, Nat.testBit_shiftLeft, Nat.testBit_two_pow_sub_one]
  split_ifs <;> simp (disch := omega) [decide_eq_false, decide_eq_true, testBit_high hd]

theorem count_both_testBit (l h i : Nat) (hl : l < 2 ^ 8) (hh : h < 2 ^ 8) :
    ((h <<< 8) ||| l).testBit i =
      if i < 8 then l.testBit i else if i < 16 then h.testBit (i - 8) else false := by
  simp only [Nat.testBit_or, Nat.testBit_shiftLeft]
  split_ifs <;> simp (disch := omega) [decide_eq_false, decide_eq_true, testBit_high hl,
    testBit_high hh]

theorem src_low_testBit (s d i : Nat) (hd : d < 2 ^ 8) :
    ((s &&& 0xFFFE00) ||| (d <<< 1)).testBit i =
      if i < 1 then false else if i < 9 then d.testBit (i - 1)
      else if i < 24 then s.testBit i else false := by
  have hm : (0xFFFE00 : Nat) = (2 ^ 15 - 1) <<< 9 := by decide
  rw [hm]
  simp only [Nat.testBit_or, Nat.testBit_and, Nat.testBit_shiftLeft, Nat.testBit_two_pow_sub_one]
  split_ifs <;> simp (disch := omega) [decide_eq_false, decide_eq_true, testBit_high hd]

theorem src_mid_testBit (s d i : Nat) (hd : d < 2 ^ 8) :
    ((s &&& 0xFE01FF) ||| (d <<< 9)).testBit i =
      if i < 9 then s.testBit i else if i < 17 then d.testBit (i - 9)
      else if i < 24 then s.testBit i else false := by
  have hm : (0xFE01FF : Nat) = (2 ^ 9 - 1) ||| ((2 ^ 7 - 1) <<< 17) := by decide
  rw [hm]
  simp only [Nat.testBit_or, Nat.testBit_and, Nat.testBit_shiftLeft, Nat.testBit_two_pow_sub_one]
  split_ifs <;> simp (disch := omega) [decide_eq_false, decide_eq_true, testBit_high hd]

theorem src_high_testBit (s x i : Nat) (hx : x < 2 ^ 7) :
    ((s &&& 0x01FFFF) ||| (x <<< 17)).testBit i =
      if i < 17 then s.testBit i else if i < 24 then x.testBit (i - 17) else false := by
  have hm : (0x01FFFF : Nat) = 2 ^ 17 - 1 := by decide
  rw [hm]
  simp only [Nat.testBit_or, Nat.testBit_and, Nat.testBit_shiftLeft, Nat.testBit_two_pow_sub_one]
  split_ifs <;> simp (disch := omega) [decide_eq_false, decide_eq_true, testBit_high hx]

theorem src_all_testBit (l m x i : Nat) (hl : l < 2 ^ 8) (hm : m < 2 ^ 8) (hx : x < 2 ^ 7) :
    ((l <<< 1) ||| (m <<< 9) ||| (x <<< 17)).testBit i =
      if i < 1 then false else if i < 9 then l.testBit (i - 1)
      else if i < 17 then m.testBit (i - 9)
      else if i < 24 then x.testBit (i - 17) else false := by
  simp only [Nat.testBit_or, Nat.testBit_shiftLeft]
  split_ifs <;> simp (disch := omega) [decide_eq_false, decide_eq_true, testBit_high hl,
    testBit_high hm, testBit_high hx]

theorem src_any_order (s l m x : Nat) (hl : l < 2 ^ 8) (hm : m < 2 ^ 8) (hx : x < 2 ^ 7) :
    ((((s &&& 0xFFFE00) ||| (l <<< 1)) &&& 0xFE01FF ||| (m <<< 9)) &&& 0x01FFFF ||| (x <<< 17))
      = (l <<< 1) ||| (m <<< 9) ||| (x <<< 17) := by
  apply Nat.eq_of_testBit_eq
  intro i
  rw [src_high_testBit _ _ _ hx, src_mid_testBit _ _ _ hm, src_low_testBit _ _ _ hl,
    src_all_testBit _ _ _ _ hl hm hx]
  split_ifs <;> first | rfl | omega

theorem src_all_lt (l m x : Nat) (hl : l < 2 ^ 8) (hm : m < 2 ^ 8) (hx : x < 2 ^ 7) :
    (l <<< 1) ||| (m <<< 9) ||| (x <<< 17) < 2 ^ 24 := by
  apply Nat.lt_pow_two_of_testBit
  intro i hi
  rw [src_all_testBit _ _ _ _ hl hm hx]
  split_ifs <;> first | rfl | omega

theorem dma_high_field_lt (d : Nat) :
    d &&& (if d &&& 0x80 ≠ 0 then 0x7F else 0x3F) < 2 ^ 7 := by
  split_ifs
  · exact Nat.and_lt_two_pow d (by decide)
  · exact Nat.and_lt_two_pow d (by decide)

theorem set_register_dma_counter_low (s : State) (w : Nat)
    (h : (w &&& 0x1F00) >>> 8 = 0x13) :
    set_register s w = .ok { s with memory := { s.memory with
      transfer_count := (s.memory.transfer_count &&& 0xFF00) ||| (w &&& 0x00FF)
      transfer_remain := (s.memory.transfer_count &&& 0xFF00) ||| (w &&& 0x00FF) } } := by
  unfold set_register
  simp only [h]
  rfl

theorem set_register_dma_counter_high (s : State) (w : Nat)
    (h : (w &&& 0x1F00) >>> 8 = 0x14) :
    set_register s w = .ok { s with memory := { s.memory with
      transfer_count := (s.memory.transfer_count &&& 0x00FF) ||| ((w &&& 0x00FF) <<< 8)
      transfer_remain := (s.memory.transfer_count &&& 0x00FF) ||| ((w &&& 0x00FF) <<< 8) } } := by
  unfold set_register
  simp only [h]
  rfl

theorem set_register_dma_addr_low (s : State) (w : Nat)
    (h : (w &&& 0x1F00) >>> 8 = 0x15) :
    set_register s w = .ok { s with memory := { s.memory with
      transfer_src_addr :=
        (s.memory.transfer_src_addr &&& 0xFFFE00) ||| ((w &&& 0x00FF) <<< 1) } } := by
  unfold set_register
  simp only [h]
  rfl

theorem set_register_dma_addr_mid (s : State) (w : Nat)
    (h : (w &&& 0x1F00) >>> 8 = 0x16) :
    set_register s w = .ok { s with memory := { s.memory with
      transfer_src_addr :=
        (s.memory.transfer_src_addr &&& 0xFE01FF) ||| ((w &&& 0x00FF) <<< 9) } } := by
  unfold set_register
  simp only [h]
  rfl

theorem set_register_dma_addr_high (s : State) (w : Nat)
    (h : (w &&& 0x1F00) >>> 8 = 0x17) :
    set_register s w = .ok { s with memory := { s.memory with
      transfer_bits := (w &&& 0x00FF) &&& 0xC0
      transfer_src_addr :=
        (s.memory.transfer_src_addr &&& 0x01FFFF) |||
          (((w &&& 0x00FF) &&& (if (w &&& 0x00FF) &&& 0x80 ≠ 0 then 0x7F else 0x3F)) <<< 17) } } := by
  unfold set_register
  simp only [h]
  rfl

theorem mask_00FF_testBit (i : Nat) : (0x00FF : Nat).testBit i = decide (i < 8) := by
  rw [show (0x00FF : Nat) = 2 ^ 8 - 1 from by decide, Nat.testBit_two_pow_sub_one]

theorem mask_FF00_testBit (i : Nat) :
    (0xFF00 : Nat).testBit i = (decide (8 ≤ i) && decide (i < 16)) := by
  rw [show (0xFF00 : Nat) = (2 ^ 8 - 1) <<< 8 from by decide, Nat.testBit_shiftLeft,
    Nat.testBit_two_pow_sub_one]
  by_cases h1 : 8 ≤ i <;> by_cases h2 : i < 16 <;>
    simp (disch := omega) [decide_eq_false, decide_eq_true]

theorem count_low_byte (c d : Nat) (hd : d < 2 ^ 8) :
    ((c &&& 0xFF00) ||| d) &&& 0x00FF = d := by
  apply Nat.eq_of_testBit_eq
  intro i
  simp only [Nat.testBit_and, count_low_testBit _ _ _ hd, mask_00FF_testBit]
  split_ifs <;> simp (disch := omega) [decide_eq_false, decide_eq_true, testBit_high hd]

theorem count_low_keeps_high (c d : Nat) (hd : d < 2 ^ 8) :
    ((c &&& 0xFF00) ||| d) &&& 0xFF00 = c &&& 0xFF00 := by
  apply Nat.eq_of_testBit_eq
  intro i
  simp only [Nat.testBit_and, count_low_testBit _ _ _ hd, mask_FF00_testBit]
  split_ifs <;> simp (disch := omega) [decide_eq_false, decide_eq_true, testBit_high hd]

theorem count_high_byte (c d : Nat) (hd : d < 2 ^ 8) :
    ((c &&& 0x00FF) ||| (d <<< 8)) &&& 0xFF00 = d <<< 8 := by
  apply Nat.eq_of_testBit_eq
  intro i
  simp only [Nat.testBit_and, count_high_testBit _ _ _ hd, mask_FF00_testBit,
    Nat.testBit_shiftLeft]
  split_ifs <;> simp (disch := omega) [decide_eq_false, decide_eq_true, testBit_high hd]

theorem count_high_keeps_low (c d : Nat) (hd : d < 2 ^ 8) :
    ((c &&& 0x00FF) ||| (d <<< 8)) &&& 0x00FF = c &&& 0x00FF := by
  apply Nat.eq_of_testBit_eq
  intro i
  simp only [Nat.testBit_and, count_high_testBit _ _ _ hd, mask_00FF_testBit]
  split_ifs <;> simp (disch := omega) [decide_eq_false, decide_eq_true, testBit_high hd]

theorem count_low_then_high (c l h : Nat) (hl : l < 2 ^ 8) (hh : h < 2 ^ 8) :
    (((c &&& 0xFF00) ||| l) &&& 0x00FF) ||| (h <<< 8) = (h <<< 8) ||| l := by
  apply Nat.eq_of_testBit_eq
  intro i
  rw [count_high_testBit _ _ _ hh, count_low_testBit _ _ _ hl, count_both_testBit _ _ _ hl hh]
  split_ifs <;> rfl

theorem count_high_then_low (c l h : Nat) (hl : l < 2 ^ 8) (hh : h < 2 ^ 8) :
    (((c &&& 0x00FF) ||| (h <<< 8)) &&& 0xFF00) ||| l = (h <<< 8) ||| l := by
  apply Nat.eq_of_testBit_eq
  intro i
  rw [count_low_testBit _ _ _ hl, count_high_testBit _ _ _ hh, count_both_testBit _ _ _ hl hh]
  split_ifs <;> rfl

/-- C17: a write to either DMA-length register (0x13 low half, 0x14 high half)
leaves `transfer_remain` equal to `transfer_count`; in the new count the written
byte is the data byte, the other byte of the 16-bit value is the old one and
nothing lies above bit 15. Hence after writing the low byte and the high byte,
in either order, `transfer_count = transfer_remain = (h << 8) | l`. -/
theorem dma_length_write_resets_remain (s : State) (wl wh : Nat)
    (hl : (wl &&& 0x1F00) >>> 8 = 0x13) (hh : (wh &&& 0x1F00) >>> 8 = 0x14) :
    (∃ s1, set_register s wl = .ok s1 ∧
      s1.memory.transfer_remain = s1.memory.transfer_count ∧
      s1.memory.transfer_count &&& 0x00FF = wl &&& 0x00FF ∧
      s1.memory.transfer_count &&& 0xFF00 = s.memory.transfer_count &&& 0xFF00 ∧
      s1.memory.transfer_count < 2 ^ 16) ∧
    (∃ s1, set_register s wh = .ok s1 ∧
      s1.memory.transfer_remain = s1.memory.transfer_count ∧
      s1.memory.transfer_count &&& 0xFF00 = (wh &&& 0x00FF) <<< 8 ∧
      s1.memory.transfer_count &&& 0x00FF = s.memory.transfer_count &&& 0x00FF ∧
      s1.memory.transfer_count < 2 ^ 16) ∧
    (∃ s2, set_registers s [wl, wh] = .ok s2 ∧
      s2.memory.transfer_count = ((wh &&& 0x00FF) <<< 8) ||| (wl &&& 0x00FF) ∧
      s2.memory.transfer_remain = ((wh &&& 0x00FF) <<< 8) ||| (wl &&& 0x00FF)) ∧
    (∃ s2, set_registers s [wh, wl] = .ok s2 ∧
      s2.memory.transfer_count = ((wh &&& 0x00FF) <<< 8) ||| (wl &&& 0x00FF) ∧
      s2.memory.transfer_remain = ((wh &&& 0x00FF) <<< 8) ||| (wl &&& 0x00FF)) := by
  have dl := data_lt wl
  have dh := data_lt wh
  have low : ∀ t : State, ∃ t1, set_register t wl = .ok t1 ∧
      t1.memory.transfer_count = (t.memory.transfer_count &&& 0xFF00) ||| (wl &&& 0x00FF) ∧
      t1.memory.transfer_remain = t1.memory.transfer_count :=
    fun t => ⟨_, set_register_dma_counter_low t wl hl, rfl, rfl⟩
  have high : ∀ t : State, ∃ t1, set_register t wh = .ok t1 ∧
      t1.memory.transfer_count =
        (t.memory.transfer_count &&& 0x00FF) ||| ((wh &&& 0x00FF) <<< 8) ∧
      t1.memory.transfer_remain = t1.memory.transfer_count :=
    fun t => ⟨_, set_register_dma_counter_high t wh hh, rfl, rfl⟩
  refine ⟨?_, ?_, ?_, ?_⟩
  · obtain ⟨s1, h1, hc, hr⟩ := low s
    refine ⟨s1, h1, hr, ?_, ?_, ?_⟩
    · rw [hc]; exact count_low_byte _ _ dl
    · rw [hc]; exact count_low_keeps_high _ _ dl
    · rw [hc]
      exact Nat.or_lt_two_pow (Nat.and_lt_two_pow _ (by decide)) (lt_trans dl (by decide))
  · obtain ⟨s1, h1, hc, hr⟩ := high s
    refine ⟨s1, h1, hr, ?_, ?_, ?_⟩
    · rw [hc]; exact count_high_byte _ _ dh
    · rw [hc]; exact count_high_keeps_low _ _ dh
    · rw [hc]
      exact Nat.or_lt_two_pow (Nat.and_lt_two_pow _ (by decide)) (Nat.shiftLeft_lt dh)
  · obtain ⟨s1, h1, hc1, -⟩ := low s
    obtain ⟨s2, h2, hc2, hr2⟩ := high s1
    have e : s2.memory.transfer_count = ((wh &&& 0x00FF) <<< 8) ||| (wl &&& 0x00FF) := by
      rw [hc2, hc1]; exact count_low_then_high _ _ _ dl dh
    refine ⟨s2, ?_, e, hr2.trans e⟩
    simp only [set_registers, h1, h2]
    rfl
  · obtain ⟨s1, h1, hc1, -⟩ := high s
    obtain ⟨s2, h2, hc2, hr2⟩ := low s1
    have e : s2.memory.transfer_count = ((wh &&& 0x00FF) <<< 8) ||| (wl &&& 0x00FF) := by
      rw [hc2, hc1]; exact count_high_then_low _ _ _ dl dh
    refine ⟨s2, ?_, e, hr2.trans e⟩
    simp only [set_registers, h1, h2]
    rfl

/-- C17, witness: from reset, the register words `0x9334` (low half := 0x34) and
`0x9412` (high half := 0x12) in either order leave count and remain at
`0x1234`. -/
theorem dma_length_write_resets_remain_witness :
    ((0x9334 &&& 0x1F00) >>> 8 = 0x13 ∧ (0x9412 &&& 0x1F00) >>> 8 = 0x14) ∧
    (∃ s2, set_registers ym7101_reset [0x9334, 0x9412] = .ok s2 ∧
      s2.memory.transfer_count = 0x1234 ∧ s2.memory.transfer_remain = 0x1234) ∧
    (∃ s2, set_registers ym7101_reset [0x9412, 0x9334] = .ok s2 ∧
      s2.memory.transfer_count = 0x1234 ∧ s2.memory.transfer_remain = 0x1234) :=
  ⟨⟨by decide, by decide⟩,
   (dma_length_write_resets_remain ym7101_reset 0x9334 0x9412 (by decide) (by decide)).2.2.1,
   (dma_length_write_resets_remain ym7101_reset 0x9334 0x9412 (by decide) (by decide)).2.2.2⟩

theorem src_order_lhm (s l m x : Nat) (hl : l < 2 ^ 8) (hm : m < 2 ^ 8) (hx : x < 2 ^ 7) :
    ((((s &&& 0xFFFE00) ||| (l <<< 1)) &&& 0x01FFFF ||| (x <<< 17)) &&& 0xFE01FF ||| (m <<< 9))
      = (l <<< 1) ||| (m <<< 9) ||| (x <<< 17) := by
  apply Nat.eq_of_testBit_eq
  intro i
  rw [src_mid_testBit _ _ _ hm, src_high_testBit _ _ _ hx, src_low_testBit _ _ _ hl,
    src_all_testBit _ _ _ _ hl hm hx]
  split_ifs <;> first | rfl | omega

theorem src_order_mlh (s l m x : Nat) (hl : l < 2 ^ 8) (hm : m < 2 ^ 8) (hx : x < 2 ^ 7) :
    ((((s &&& 0xFE01FF) ||| (m <<< 9)) &&& 0xFFFE00 ||| (l <<< 1)) &&& 0x01FFFF ||| (x <<< 17))
      = (l <<< 1) ||| (m <<< 9) ||| (x <<< 17) := by
  apply Nat.eq_of_testBit_eq
  intro i
  rw [src_high_testBit _ _ _ hx, src_low_testBit _ _ _ hl, src_mid_testBit _ _ _ hm,
    src_all_testBit _ _ _ _ hl hm hx]
  split_ifs <;> first | rfl | omega

theorem src_order_mhl (s l m x : Nat) (hl : l < 2 ^ 8) (hm : m < 2 ^ 8) (hx : x < 2 ^ 7) :
    ((((s &&& 0xFE01FF) ||| (m <<< 9)) &&& 0x01FFFF ||| (x <<< 17)) &&& 0xFFFE00 ||| (l <<< 1))
      = (l <<< 1) ||| (m <<< 9) ||| (x <<< 17) := by
  apply Nat.eq_of_testBit_eq
  intro i
  rw [src_low_testBit _ _ _ hl, src_high_testBit _ _ _ hx, src_mid_testBit _ _ _ hm,
    src_all_testBit _ _ _ _ hl hm hx]
  split_ifs <;> first | rfl | omega

theorem src_order_hlm (s l m x : Nat) (hl : l < 2 ^ 8) (hm : m < 2 ^ 8) (hx : x < 2 ^ 7) :
    ((((s &&& 0x01FFFF) ||| (x <<< 17)) &&& 0xFFFE00 ||| (l <<< 1)) &&& 0xFE01FF ||| (m <<< 9))
      = (l <<< 1) ||| (m <<< 9) ||| (x <<< 17) := by
  apply Nat.eq_of_testBit_eq
  intro i
  rw [src_mid_testBit _ _ _ hm, src_low_testBit _ _ _ hl, src_high_testBit _ _ _ hx,
    src_all_testBit _ _ _ _ hl hm hx]
  split_ifs <;> first | rfl | omega

theorem src_order_hml (s l m x : Nat) (hl : l < 2 ^ 8) (hm : m < 2 ^ 8) (hx : x < 2 ^ 7) :
    ((((s &&& 0x01FFFF) ||| (x <<< 17)) &&& 0xFE01FF ||| (m <<< 9)) &&& 0xFFFE00 ||| (l <<< 1))
      = (l <<< 1) ||| (m <<< 9) ||| (x <<< 17) := by
  apply Nat.eq_of_testBit_eq
  intro i
  rw [src_low_testBit _ _ _ hl, src_mid_testBit _ _ _ hm, src_high_testBit _ _ _ hx,
    src_all_testBit _ _ _ _ hl hm hx]
  split_ifs <;> first | rfl | omega

/-- C18: from any state, after the register writes `l` to 0x15, `m` to 0x16 and
`h` to 0x17, in any of the six orders, the DMA source address is
`(l << 1) | (m << 9) | ((h & mask) << 17)` with `mask = 0x7F` if bit 0x80 of `h`
is set and `0x3F` otherwise; it is below `2^24`, and `transfer_bits` is
`h & 0xC0`. The register words are `wl`, `wm`, `wh`; their data bytes are
`l = wl & 0xFF`, `m = wm & 0xFF`, `h = wh & 0xFF`. -/
theorem dma_source_address_any_order (s : State) (wl wm wh : Nat) (ws : List Nat)
    (hl : (wl &&& 0x1F00) >>> 8 = 0x15) (hm : (wm &&& 0x1F00) >>> 8 = 0x16)
    (hh : (wh &&& 0x1F00) >>> 8 = 0x17)
    (hws : ws ∈ [[wl, wm, wh], [wl, wh, wm], [wm, wl, wh], [wm, wh, wl], [wh, wl, wm],
      [wh, wm, wl]]) :
    ∃ s1, set_registers s ws = .ok s1 ∧
      s1.memory.transfer_src_addr =
        ((wl &&& 0x00FF) <<< 1) ||| ((wm &&& 0x00FF) <<< 9) |||
          (((wh &&& 0x00FF) &&& (if (wh &&& 0x00FF) &&& 0x80 ≠ 0 then 0x7F else 0x3F)) <<< 17) ∧
      s1.memory.transfer_src_addr < 2 ^ 24 ∧
      s1.memory.transfer_bits = (wh &&& 0x00FF) &&& 0xC0 := by
  have dl := data_lt wl
  have dm := data_lt wm
  have dx := dma_high_field_lt (wh &&& 0x00FF)
  have low : ∀ t : State, ∃ t1, set_register t wl = .ok t1 ∧
      t1.memory.transfer_src_addr =
        (t.memory.transfer_src_addr &&& 0xFFFE00) ||| ((wl &&& 0x00FF) <<< 1) ∧
      t1.memory.transfer_bits = t.memory.transfer_bits :=
    fun t => ⟨_, set_register_dma_addr_low t wl hl, rfl, rfl⟩
  have mid : ∀ t : State, ∃ t1, set_register t wm = .ok t1 ∧
      t1.memory.transfer_src_addr =
        (t.memory.transfer_src_addr &&& 0xFE01FF) ||| ((wm &&& 0x00FF) <<< 9) ∧
      t1.memory.transfer_bits = t.memory.transfer_bits :=
    fun t => ⟨_, set_register_dma_addr_mid t wm hm, rfl, rfl⟩
  have high : ∀ t : State, ∃ t1, set_register t wh = .ok t1 ∧
      t1.memory.transfer_src_addr =
        (t.memory.transfer_src_addr &&& 0x01FFFF) |||
          (((wh &&& 0x00FF) &&& (if (wh &&& 0x00FF) &&& 0x80 ≠ 0 then 0x7F else 0x3F)) <<< 17) ∧
      t1.memory.transfer_bits = (wh &&& 0x00FF) &&& 0xC0 :=
    fun t => ⟨_, set_register_dma_addr_high t wh hh, rfl, rfl⟩
  have hbound := src_all_lt _ _ _ dl dm dx
  simp only [List.mem_cons, List.mem_singleton, List.not_mem_nil, or_false] at hws
  rcases hws with rfl | rfl | rfl | rfl | rfl | rfl
  · obtain ⟨s1, h1, a1, b1⟩ := low s
    obtain ⟨s2, h2, a2, b2⟩ := mid s1
    obtain ⟨s3, h3, a3, b3⟩ := high s2
    refine ⟨s3, ?_, ?_, ?_, b3⟩
    · simp only [set_registers, h1, h2, h3]; rfl
    · rw [a3, a2, a1]; exact src_any_order _ _ _ _ dl dm dx
    · rw [a3, a2, a1, src_any_order _ _ _ _ dl dm dx]; exact hbound
  · obtain ⟨s1, h1, a1, b1⟩ := low s
    obtain ⟨s2, h2, a2, b2⟩ := high s1
    obtain ⟨s3, h3, a3, b3⟩ := mid s2
    refine ⟨s3, ?_, ?_, ?_, b3.trans b2⟩
    · simp only [set_registers, h1, h2, h3]; rfl
    · rw [a3, a2, a1]; exact src_order_lhm _ _ _ _ dl dm dx
    · rw [a3, a2, a1, src_order_lhm _ _ _ _ dl dm dx]; exact hbound
  · obtain ⟨s1, h1, a1, b1⟩ := mid s
    obtain ⟨s2, h2, a2, b2⟩ := low s1
    obtain ⟨s3, h3, a3, b3⟩ := high s2
    refine ⟨s3, ?_, ?_, ?_, b3⟩
    · simp only [set_registers, h1, h2, h3]; rfl
    · rw [a3, a2, a1]; exact src_order_mlh _ _ _ _ dl dm dx
    · rw [a3, a2, a1, src_order_mlh _ _ _ _ dl dm dx]; exact hbound
  · obtain ⟨s1, h1, a1, b1⟩ := mid s
    obtain ⟨s2, h2, a2, b2⟩ := high s1
    obtain ⟨s3, h3, a3, b3⟩ := low s2
    refine ⟨s3, ?_, ?_, ?_, b3.trans b2⟩
    · simp only [set_registers, h1, h2, h3]; rfl
    · rw [a3, a2, a1]; exact src_order_mhl _ _ _ _ dl dm dx
    · rw [a3, a2, a1, src_order_mhl _ _ _ _ dl dm dx]; exact hbound
  · obtain ⟨s1, h1, a1, b1⟩ := high s
    obtain ⟨s2, h2, a2, b2⟩ := low s1
    obtain ⟨s3, h3, a3, b3⟩ := mid s2
    refine ⟨s3, ?_, ?_, ?_, (b3.trans b2).trans b1⟩
    · simp only [set_registers, h1, h2, h3]; rfl
    · rw [a3, a2, a1]; exact src_order_hlm _ _ _ _ dl dm dx
    · rw [a3, a2, a1, src_order_hlm _ _ _ _ dl dm dx]; exact hbound
  · obtain ⟨s1, h1, a1, b1⟩ := high s
    obtain ⟨s2, h2, a2, b2⟩ := mid s1
    obtain ⟨s3, h3, a3, b3⟩ := low s2
    refine ⟨s3, ?_, ?_, ?_, (b3.trans b2).trans b1⟩
    · simp only [set_registers, h1, h2, h3]; rfl
    · rw [a3, a2, a1]; exact src_order_hml _ _ _ _ dl dm dx
    · rw [a3, a2, a1, src_order_hml _ _ _ _ dl dm dx]; exact hbound

/-- C18, witness: from a state whose source address has every bit set
(`0xFFFFFFFF`), the register words `0x97C1` (high := 0xC1), `0x9502`
(low := 0x02) and `0x9603` (mid := 0x03), in that order, leave the source
address `(0x02 << 1) | (0x03 << 9) | (0x41 << 17) = 0x820604` and
`transfer_bits = 0xC0`. -/
theorem dma_source_address_any_order_witness :
    ((0x9502 &&& 0x1F00) >>> 8 = 0x15 ∧ (0x9603 &&& 0x1F00) >>> 8 = 0x16 ∧
      (0x97C1 &&& 0x1F00) >>> 8 = 0x17) ∧
    ∃ s1, set_registers
        { ym7101_reset with memory :=
            { ym7101_reset.memory with transfer_src_addr := 0xFFFFFFFF } }
        [0x97C1, 0x9502, 0x9603] = .ok s1 ∧
      s1.memory.transfer_src_addr = 0x820604 ∧
      s1.memory.transfer_src_addr < 2 ^ 24 ∧
      s1.memory.transfer_bits = 0xC0 :=
  ⟨⟨by decide, by decide, by decide⟩,
   dma_source_address_any_order
     { ym7101_reset with memory :=
         { ym7101_reset.memory with transfer_src_addr := 0xFFFFFFFF } }
     0x9502 0x9603 0x97C1 [0x97C1, 0x9502, 0x9603] (by decide) (by decide) (by decide)
     (by simp)⟩

theorem src_low_idem (s d : Nat) (hd : d < 2 ^ 8) :
    (((s &&& 0xFFFE00) ||| (d <<< 1)) &&& 0xFFFE00) ||| (d <<< 1)
      = (s &&& 0xFFFE00) ||| (d <<< 1) := by
  apply Nat.eq_of_testBit_eq
  intro i
  rw [src_low_testBit _ _ _ hd, src_low_testBit _ _ _ hd]
  split_ifs <;> rfl

theorem src_mid_idem (s d : Nat) (hd : d < 2 ^ 8) :
    (((s &&& 0xFE01FF) ||| (d <<< 9)) &&& 0xFE01FF) ||| (d <<< 9)
      = (s &&& 0xFE01FF) ||| (d <<< 9) := by
  apply Nat.eq_of_testBit_eq
  intro i
  rw [src_mid_testBit _ _ _ hd, src_mid_testBit _ _ _ hd]
  split_ifs <;> rfl

theorem src_high_idem (s x : Nat) (hx : x < 2 ^ 7) :
    (((s &&& 0x01FFFF) ||| (x <<< 17)) &&& 0x01FFFF) ||| (x <<< 17)
      = (s &&& 0x01FFFF) ||| (x <<< 17) := by
  apply Nat.eq_of_testBit_eq
  intro i
  rw [src_high_testBit _ _ _ hx, src_high_testBit _ _ _ hx]
  split_ifs <;> rfl

theorem count_low_idem (c d : Nat) (hd : d < 2 ^ 8) :
    (((c &&& 0xFF00) ||| d) &&& 0xFF00) ||| d = (c &&& 0xFF00) ||| d := by
  rw [count_low_keeps_high _ _ hd]

theorem count_high_idem (c d : Nat) (hd : d < 2 ^ 8) :
    (((c &&& 0x00FF) ||| (d <<< 8)) &&& 0x00FF) ||| (d <<< 8) = (c &&& 0x00FF) ||| (d <<< 8) := by
  rw [count_high_keeps_low _ _ hd]

/-- Writing the same register word twice gives the state of writing it once. -/
theorem set_register_twice (s : State) (w : Nat) :
    (set_register s w >>= fun s1 => set_register s1 w) = set_register s w := by
  have hlt := reg_index_lt w
  generalize hr : (w &&& 0x1F00) >>> 8 = r at hlt
  have dw := data_lt w
  by_cases h10 : r = 0x10
  · subst h10
    simp only [set_register_scroll_size _ w hr]
    cases decode_scroll_size ((w &&& 0x00FF) &&& 0x03) with
    | error e => rfl
    | ok a =>
      cases decode_scroll_size (((w &&& 0x00FF) >>> 4) &&& 0x03) with
      | error e => rfl
      | ok b => rfl
  by_cases h13 : r = 0x13
  · subst h13
    simp only [set_register_dma_counter_low _ w hr, bind, Except.bind]
    simp only [count_low_idem _ _ dw]
  by_cases h14 : r = 0x14
  · subst h14
    simp only [set_register_dma_counter_high _ w hr, bind, Except.bind]
    simp only [count_high_idem _ _ dw]
  by_cases h15 : r = 0x15
  · subst h15
    simp only [set_register_dma_addr_low _ w hr, bind, Except.bind]
    simp only [src_low_idem _ _ dw]
  by_cases h16 : r = 0x16
  · subst h16
    simp only [set_register_dma_addr_mid _ w hr, bind, Except.bind]
    simp only [src_mid_idem _ _ dw]
  by_cases h17 : r = 0x17
  · subst h17
    simp only [set_register_dma_addr_high _ w hr, bind, Except.bind]
    simp only [src_high_idem _ _ (dma_high_field_lt (w &&& 0x00FF))]
  unfold set_register
  simp only [hr]
  interval_cases r <;> first
    | rfl
    | exact absurd rfl h10
    | exact absurd rfl h13
    | exact absurd rfl h14
    | exact absurd rfl h15
    | exact absurd rfl h16
    | exact absurd rfl h17

/-- For an implemented register other than the scroll size, `set_register`
succeeds. -/
theorem set_register_ok_of_implemented (s : State) (w : Nat)
    (hlt : (w &&& 0x1F00) >>> 8 < 0x18) (hne : (w &&& 0x1F00) >>> 8 ≠ 0x10) :
    ∃ s1, set_register s w = .ok s1 := by
  generalize hr : (w &&& 0x1F00) >>> 8 = r at hlt hne
  unfold set_register
  simp only [hr]
  interval_cases r <;> first
    | exact absurd rfl hne
    | exact ⟨_, rfl⟩

theorem set_register_fault_of_unimplemented (s : State) (w : Nat)
    (hge : 0x18 ≤ (w &&& 0x1F00) >>> 8) :
    set_register s w = .error Fault.unhandled_register := by
  have hlt := reg_index_lt w
  generalize hr : (w &&& 0x1F00) >>> 8 = r at hlt hge
  unfold set_register
  simp only [hr]
  interval_cases r <;> rfl

/-- Whether a register word faults, and with which fault, does not depend on
the state it is written to. -/
theorem set_register_fault_of_word (s t : State) (w : Nat) (e : Fault)
    (h : set_register s w = .error e) : set_register t w = .error e := by
  by_cases h10 : (w &&& 0x1F00) >>> 8 = 0x10
  · rw [set_register_scroll_size _ w h10] at h ⊢
    cases h1 : decode_scroll_size ((w &&& 0x00FF) &&& 0x03) with
    | error e1 => rw [h1] at h; exact h
    | ok a =>
      cases h2 : decode_scroll_size (((w &&& 0x00FF) >>> 4) &&& 0x03) with
      | error e2 => rw [h1, h2] at h; exact h
      | ok b => rw [h1, h2] at h; cases h
  · by_cases hlt : (w &&& 0x1F00) >>> 8 < 0x18
    · obtain ⟨s1, h1⟩ := set_register_ok_of_implemented s w hlt h10
      rw [h1] at h
      cases h
    · rw [set_register_fault_of_unimplemented s w (by omega)] at h
      rw [set_register_fault_of_unimplemented t w (by omega)]
      exact h

theorem set_register_reserved (s : State) (w : Nat)
    (h : (w &&& 0x1F00) >>> 8 = 0x06 ∨ (w &&& 0x1F00) >>> 8 = 0x08 ∨
      (w &&& 0x1F00) >>> 8 = 0x09 ∨ (w &&& 0x1F00) >>> 8 = 0x0E) :
    set_register s w = .ok s := by
  unfold set_register
  rcases h with h | h | h | h <;> simp only [h] <;> rfl

/-- What a write to the scroll-size register does, by the two 2-bit codes. -/
theorem set_register_scroll_size_cases (s : State) (w : Nat)
    (h : (w &&& 0x1F00) >>> 8 = 0x10) :
    (((w &&& 0x00FF) &&& 0x03 = 2 ∨ ((w &&& 0x00FF) >>> 4) &&& 0x03 = 2) →
      set_register s w = .error Fault.invalid_scroll_size_option) ∧
    (¬ ((w &&& 0x00FF) &&& 0x03 = 2 ∨ ((w &&& 0x00FF) >>> 4) &&& 0x03 = 2) →
      ∃ hs vs, decode_scroll_size ((w &&& 0x00FF) &&& 0x03) = .ok hs ∧
        decode_scroll_size (((w &&& 0x00FF) >>> 4) &&& 0x03) = .ok vs ∧
        set_register s w = .ok { s with scroll_size := (hs, vs) }) := by
  rw [set_register_scroll_size s w h]
  have ha := scroll_code_lt (w &&& 0x00FF)
  have hb := scroll_code_lt ((w &&& 0x00FF) >>> 4)
  generalize (w &&& 0x00FF) &&& 0x03 = a at ha
  generalize ((w &&& 0x00FF) >>> 4) &&& 0x03 = b at hb
  interval_cases a <;> interval_cases b <;>
    simp [decode_scroll_size, Except.bind, pure, Except.pure, throw, throwThe,
      MonadExceptOf.throw]

/-! ## Claims on the register bank -/

/-- C13: for every 16-bit word `w` whose top two bits are 10, a 16-bit
control-port write of `w` at offset `0x04` or `0x06` is `set_register` of `w`,
which uses the 5-bit index `(w >> 8) & 0x1F` and the data byte `w & 0xFF` and
nothing else of `w`; for an implemented index other than 0x10 the write
succeeds, and a write that succeeds leaves the control latch (flag and buffered
word), the transfer type, target and destination and the status word as they
were. -/
theorem ctrl_write16_is_register_write (p : Nat) (self : State) (w addr : Nat)
    (hw : w < 0x10000) (hreg : w &&& 0xC000 = 0x8000) (haddr : addr = 0x04 ∨ addr = 0x06) :
    ym7101_write p self addr w 2 = set_register self w ∧
    (w &&& 0x1F00) >>> 8 = (w >>> 8) &&& 0x1F ∧
    (∀ w2, (w2 >>> 8) &&& 0x1F = (w >>> 8) &&& 0x1F → w2 &&& 0x00FF = w &&& 0x00FF →
      set_register self w2 = set_register self w) ∧
    ((w >>> 8) &&& 0x1F < 0x18 → (w >>> 8) &&& 0x1F ≠ 0x10 →
      ∃ s1, ym7101_write p self addr w 2 = .ok s1) ∧
    (∀ s1, ym7101_write p self addr w 2 = .ok s1 →
      s1.memory.ctrl_port_set = self.memory.ctrl_port_set ∧
      s1.memory.ctrl_port_buffer = self.memory.ctrl_port_buffer ∧
      s1.memory.transfer_type = self.memory.transfer_type ∧
      s1.memory.transfer_target = self.memory.transfer_target ∧
      s1.memory.transfer_dest_addr = self.memory.transfer_dest_addr ∧
      s1.status = self.status) := by
  have hwr := ym7101_write_register_word p self w addr hw hreg haddr
  refine ⟨hwr, reg_index_eq w, ?_, ?_, ?_⟩
  · intro w2 h1 h2
    exact set_register_congr self w2 w (by rw [reg_index_eq, reg_index_eq, h1]) h2
  · intro h1 h2
    rw [hwr]
    rw [← reg_index_eq] at h1 h2
    exact set_register_ok_of_implemented self w h1 h2
  · intro s1 h
    rw [hwr] at h
    obtain ⟨f1, f2, f3, f4, f5, f6, -⟩ := set_register_frame self s1 w h
    exact ⟨f2, f3, f4, f5, f6, f1⟩

/-- C13, witness: from reset, the word `0x8210` sets the scroll-A base to
`0x10 << 10 = 0x4000` and the word `0x8F02` sets the auto-increment to 2. -/
theorem ctrl_write16_is_register_write_witness :
    (0x8210 < 0x10000 ∧ 0x8210 &&& 0xC000 = 0x8000 ∧
      0x8F02 < 0x10000 ∧ 0x8F02 &&& 0xC000 = 0x8000) ∧
    (∃ s1, ym7101_write 8 ym7101_reset 0x04 0x8210 2 = .ok s1 ∧
      s1.scroll_a_addr = 0x4000 ∧ s1.memory.ctrl_port_set = false ∧
      s1.status = ym7101_reset.status) ∧
    (∃ s1, ym7101_write 8 ym7101_reset 0x04 0x8F02 2 = .ok s1 ∧
      s1.memory.transfer_auto_inc = 2 ∧ s1.memory.ctrl_port_set = false ∧
      s1.status = ym7101_reset.status) :=
  ⟨⟨by decide, by decide, by decide, by decide⟩,
   ⟨_, (ctrl_write16_is_register_write 8 ym7101_reset 0x8210 0x04 (by decide) (by decide)
      (Or.inl rfl)).1.trans rfl, rfl, rfl, rfl⟩,
   ⟨_, (ctrl_write16_is_register_write 8 ym7101_reset 0x8F02 0x04 (by decide) (by decide)
      (Or.inl rfl)).1.trans rfl, rfl, rfl, rfl⟩⟩

/-- C14: with `r = (w & 0x1F00) >> 8` the register index of the word `w`
(always at most 0x1F): on the reserved indices 0x06, 0x08, 0x09 and 0x0E
`set_register` succeeds and returns the state unchanged; on every index from
0x18 to 0x1F it fails with the `unhandled register` assertion; on every other
index below 0x18 it succeeds, except index 0x10, which fails (with the invalid
scroll size assertion) exactly when one of its two 2-bit codes is 2. -/
theorem set_register_index_cases (self : State) (w : Nat) :
    (w &&& 0x1F00) >>> 8 ≤ 0x1F ∧
    (((w &&& 0x1F00) >>> 8 = 0x06 ∨ (w &&& 0x1F00) >>> 8 = 0x08 ∨
      (w &&& 0x1F00) >>> 8 = 0x09 ∨ (w &&& 0x1F00) >>> 8 = 0x0E) →
        set_register self w = .ok self) ∧
    (0x18 ≤ (w &&& 0x1F00) >>> 8 →
        set_register self w = .error Fault.unhandled_register) ∧
    ((w &&& 0x1F00) >>> 8 < 0x18 → (w &&& 0x1F00) >>> 8 ≠ 0x10 →
        ∃ s1, set_register self w = .ok s1) ∧
    ((w &&& 0x1F00) >>> 8 = 0x10 →
        (((w &&& 0x00FF) &&& 0x03 = 2 ∨ ((w &&& 0x00FF) >>> 4) &&& 0x03 = 2) →
          set_register self w = .error Fault.invalid_scroll_size_option) ∧
        (¬ ((w &&& 0x00FF) &&& 0x03 = 2 ∨ ((w &&& 0x00FF) >>> 4) &&& 0x03 = 2) →
          ∃ s1, set_register self w = .ok s1)) := by
  refine ⟨Nat.le_of_lt_succ (reg_index_lt w), set_register_reserved self w,
    set_register_fault_of_unimplemented self w, set_register_ok_of_implemented self w, ?_⟩
  intro h
  obtain ⟨hbad, hgood⟩ := set_register_scroll_size_cases self w h
  refine ⟨hbad, fun hn => ?_⟩
  obtain ⟨hs, vs, -, -, hset⟩ := hgood hn
  exact ⟨_, hset⟩

/-- C15: `decode_scroll_size` maps the codes 0, 1, 3 to 32, 64, 128 and fails
with the invalid scroll size assertion on code 2. A write of the data byte `d`
to register 0x10 faults with that assertion if `d & 3` or `(d >> 4) & 3` is 2,
and otherwise sets `scroll_size` to `(decode (d & 3), decode ((d >> 4) & 3))`,
horizontal first. -/
theorem scroll_size_decode_and_write (self : State) (w : Nat)
    (h : (w &&& 0x1F00) >>> 8 = 0x10) :
    decode_scroll_size 0 = .ok 32 ∧ decode_scroll_size 1 = .ok 64 ∧
    decode_scroll_size 3 = .ok 128 ∧
    decode_scroll_size 2 = .error Fault.invalid_scroll_size_option ∧
    (((w &&& 0x00FF) &&& 0x03 = 2 ∨ ((w &&& 0x00FF) >>> 4) &&& 0x03 = 2) →
      set_register self w = .error Fault.invalid_scroll_size_option) ∧
    (¬ ((w &&& 0x00FF) &&& 0x03 = 2 ∨ ((w &&& 0x00FF) >>> 4) &&& 0x03 = 2) →
      ∃ hs vs, decode_scroll_size ((w &&& 0x00FF) &&& 0x03) = .ok hs ∧
        decode_scroll_size (((w &&& 0x00FF) >>> 4) &&& 0x03) = .ok vs ∧
        set_register self w = .ok { self with scroll_size := (hs, vs) }) ∧
    ((∃ e, set_register self w = .error e) ↔
      ((w &&& 0x00FF) &&& 0x03 = 2 ∨ ((w &&& 0x00FF) >>> 4) &&& 0x03 = 2)) := by
  obtain ⟨hbad, hgood⟩ := set_register_scroll_size_cases self w h
  refine ⟨rfl, rfl, rfl, rfl, hbad, hgood, ?_, fun hc => ⟨_, hbad hc⟩⟩
  rintro ⟨e, he⟩
  by_contra hn
  obtain ⟨hs, vs, -, -, hset⟩ := hgood hn
  rw [hset] at he
  cases he

/-- C15, witness: the word `0x9031` (register 0x10, data `0x31`: horizontal code
1, vertical code 3) sets the scroll size to 64 by 128, and the word `0x9002`
(horizontal code 2) faults. -/
theorem scroll_size_decode_and_write_witness :
    ((0x9031 &&& 0x1F00) >>> 8 = 0x10 ∧ (0x9002 &&& 0x1F00) >>> 8 = 0x10) ∧
    (∃ s1, set_register ym7101_reset 0x9031 = .ok s1 ∧ s1.scroll_size = (64, 128)) ∧
    set_register ym7101_reset 0x9002 = .error Fault.invalid_scroll_size_option :=
  ⟨⟨by decide, by decide⟩,
   (by
     obtain ⟨hs, vs, h1, h2, h3⟩ :=
       (scroll_size_decode_and_write ym7101_reset 0x9031 (by decide)).2.2.2.2.2.1 (by decide)
     cases h1
     cases h2
     exact ⟨_, h3, rfl⟩),
   (scroll_size_decode_and_write ym7101_reset 0x9002 (by decide)).2.2.2.2.1
     (Or.inl (by decide))⟩

/-- C16: register writes are idempotent. For every state `s` and register word
`w`, writing `w` to the state that a write of `w` produced gives that same
state again, also for the DMA length and DMA source address registers; and a
word that faults on one state faults, with the same fault, on every state. -/
theorem set_register_idempotent (s : State) (w : Nat) :
    (set_register s w >>= fun s1 => set_register s1 w) = set_register s w ∧
    (∀ s1, set_register s w = .ok s1 → set_register s1 w = .ok s1) ∧
    (∀ t e, set_register s w = .error e → set_register t w = .error e) := by
  refine ⟨set_register_twice s w, ?_, fun t e h => set_register_fault_of_word s t w e h⟩
  intro s1 h
  have h2 := set_register_twice s w
  rw [h] at h2
  exact h2

/-- C19, as the code has it: a register write of the data byte `v` to a base
address register stores `v` shifted left by 10 for scroll layer A (register
0x02), by 10 for the window layer (0x03), by 13 for scroll layer B (0x04), by 9
for the sprite table (0x05) and by 10 for the horizontal-scroll table (0x0D),
and changes nothing else. -/
theorem base_address_shifts (s : State) (w : Nat) :
    ((w &&& 0x1F00) >>> 8 = 0x02 →
      set_register s w = .ok { s with scroll_a_addr := (w &&& 0x00FF) <<< 10 }) ∧
    ((w &&& 0x1F00) >>> 8 = 0x03 →
      set_register s w = .ok { s with window_addr := (w &&& 0x00FF) <<< 10 }) ∧
    ((w &&& 0x1F00) >>> 8 = 0x04 →
      set_register s w = .ok { s with scroll_b_addr := (w &&& 0x00FF) <<< 13 }) ∧
    ((w &&& 0x1F00) >>> 8 = 0x05 →
      set_register s w = .ok { s with sprites_addr := (w &&& 0x00FF) <<< 9 }) ∧
    ((w &&& 0x1F00) >>> 8 = 0x0D →
      set_register s w = .ok { s with hscroll_addr := (w &&& 0x00FF) <<< 10 }) := by
  refine ⟨?_, ?_, ?_, ?_, ?_⟩ <;>
    (intro h
     unfold set_register
     simp only [h]
     rfl)

/-- C19, counterexample: from reset, the data byte 1 written to the scroll-B
register (word `0x8401`) gives the base `1 << 13`, not `1 << 10`, and written to
the window register (word `0x8301`) gives `1 << 10`, not `1 << 13`. -/
theorem base_address_shifts_not_as_listed :
    (∃ s1, set_register ym7101_reset 0x8401 = .ok s1 ∧
      s1.scroll_b_addr = 1 <<< 13 ∧ s1.scroll_b_addr ≠ 1 <<< 10) ∧
    (∃ s1, set_register ym7101_reset 0x8301 = .ok s1 ∧
      s1.window_addr = 1 <<< 10 ∧ s1.window_addr ≠ 1 <<< 13) :=
  ⟨⟨_, rfl, rfl, by decide⟩, ⟨_, rfl, rfl, by decide⟩⟩

/-! ## 32-bit control-port writes -/

theorem Memory.eq_of_fields (a b : Memory)
    (h1 : a.vram = b.vram) (h2 : a.cram = b.cram) (h3 : a.vsram = b.vsram)
    (h4 : a.transfer_type = b.transfer_type) (h5 : a.transfer_bits = b.transfer_bits)
    (h6 : a.transfer_count = b.transfer_count) (h7 : a.transfer_remain = b.transfer_remain)
    (h8 : a.transfer_src_addr = b.transfer_src_addr)
    (h9 : a.transfer_dest_addr = b.transfer_dest_addr)
    (h10 : a.transfer_auto_inc = b.transfer_auto_inc)
    (h11 : a.transfer_fill_word = b.transfer_fill_word)
    (h12 : a.transfer_run = b.transfer_run) (h13 : a.transfer_target = b.transfer_target)
    (h14 : a.transfer_dma_busy = b.transfer_dma_busy)
    (h15 : a.ctrl_port_buffer = b.ctrl_port_buffer)
    (h16 : a.ctrl_port_set = b.ctrl_port_set) : a = b := by
  cases a
  cases b
  simp only [Memory.mk.injEq]
  exact ⟨h1, h2, h3, h4, h5, h6, h7, h8, h9, h10, h11, h12, h13, h14, h15, h16⟩

/-- `setup_transfer` neither reads the latch flag nor the buffered word. -/
theorem setup_transfer_latch_irrelevant (m : Memory) (b : Bool) (x first second : Nat) :
    setup_transfer { m with ctrl_port_set := b, ctrl_port_buffer := x } first second =
      { setup_transfer m first second with ctrl_port_set := b } := by
  obtain ⟨f1, f2, f3, f5, f6, f7, f8, f10, f11⟩ := setup_transfer_frame
    { m with ctrl_port_set := b, ctrl_port_buffer := x } first second
  obtain ⟨g1, g2, g3, g5, g6, g7, g8, g10, g11⟩ := setup_transfer_frame m first second
  have ha := setup_transfer_arming { m with ctrl_port_set := b, ctrl_port_buffer := x }
    first second
  have hb := setup_transfer_arming m first second
  have ht := setup_transfer_target { m with ctrl_port_set := b, ctrl_port_buffer := x }
    first second
  have hu := setup_transfer_target m first second
  rw [setup_transfer_type] at ha hb ht hu
  have hab := ha.trans hb.symm
  apply Memory.eq_of_fields
  · exact f1.trans g1.symm
  · exact f2.trans g2.symm
  · exact f3.trans g3.symm
  · exact (setup_transfer_type _ _ _).trans (setup_transfer_type _ _ _).symm
  · exact f5.trans g5.symm
  · exact f6.trans g6.symm
  · exact f7.trans g7.symm
  · exact f8.trans g8.symm
  · exact (setup_transfer_dest _ _ _).trans (setup_transfer_dest _ _ _).symm
  · exact f10.trans g10.symm
  · exact f11.trans g11.symm
  · exact congrArg Prod.fst hab
  · exact ht.trans hu.symm
  · exact congrArg Prod.snd hab
  · exact (setup_transfer_latch _ _ _).2.trans (setup_transfer_latch _ _ _).2.symm
  · exact (setup_transfer_latch _ _ _).1

theorem status_busy_bit_twice (st : Nat) (b1 : Bool) (f : Nat) :
    (((st &&& 0xFFFD) ||| (if b1 then DMA_BUSY else 0)) &&& 0xFFFD) ||| f
      = (st &&& 0xFFFD) ||| f := by
  rw [Nat.and_distrib_right, Nat.and_assoc, Nat.and_self]
  cases b1
  · simp
  · have h : DMA_BUSY &&& 0xFFFD = 0 := by decide
    simp [h]

theorem half_words_lt (v : Nat) (hv : v < 2 ^ 32) :
    v >>> 16 < 0x10000 ∧ v &&& 0xFFFF < 0x10000 := by
  refine ⟨?_, Nat.and_lt_two_pow v (by decide : 0xFFFF < 2 ^ 16)⟩
  rw [Nat.shiftRight_eq_div_pow]
  omega

/-- A 32-bit control-port write into an empty latch whose upper half is not a
register word runs `setup_transfer` on the two halves. -/
theorem ym7101_write_long_setup (p : Nat) (self : State) (v addr : Nat)
    (hset : self.memory.ctrl_port_set = false) (hv : v < 2 ^ 32)
    (hhi : (v >>> 16) &&& 0xC000 ≠ 0x8000) (haddr : addr = 0x04 ∨ addr = 0x06) :
    ym7101_write p self addr v 4 = .ok
      { self with
        memory := setup_transfer self.memory (v >>> 16) (v &&& 0xFFFF)
        status := (self.status &&& 0xFFFD) |||
          (if (setup_transfer self.memory (v >>> 16) (v &&& 0xFFFF)).transfer_dma_busy
            then DMA_BUSY else 0) } := by
  obtain ⟨h1, h2⟩ := half_words_lt v hv
  have hv32 : v % 4294967296 = v := Nat.mod_eq_of_lt (by simpa using hv)
  have e1 : (v >>> 16) % 65536 = v >>> 16 := Nat.mod_eq_of_lt h1
  have e2 : (v &&& 65535) % 65536 = v &&& 65535 := Nat.mod_eq_of_lt h2
  rcases haddr with rfl | rfl <;>
    simp [ym7101_write, write_control_port, hhi, hset, hv32, e1, e2] <;> rfl

/-- A 32-bit control-port write whose upper half is a register word is two
register writes, with an assertion on the lower half in between. -/
theorem ym7101_write_long_register (p : Nat) (self : State) (v addr : Nat)
    (hv : v < 2 ^ 32) (hhi : (v >>> 16) &&& 0xC000 = 0x8000)
    (haddr : addr = 0x04 ∨ addr = 0x06) :
    ym7101_write p self addr v 4 =
      (set_register self (v >>> 16) >>= fun s1 =>
        if (v &&& 0xFFFF) &&& 0xC000 = 0x8000 then set_register s1 (v &&& 0xFFFF)
        else .error Fault.unexpected_second_byte) := by
  obtain ⟨h1, h2⟩ := half_words_lt v hv
  have e1 : (v >>> 16) % 65536 = v >>> 16 := Nat.mod_eq_of_lt h1
  have e2 : (v &&& 65535) % 65536 = v &&& 65535 := Nat.mod_eq_of_lt h2
  rcases haddr with rfl | rfl <;>
    simp [ym7101_write, hhi, e1, e2] <;> rfl

/-- C11, as the code has it: for every state whose control latch is empty and
every 32-bit value `v` neither of whose halves is a register word, the 32-bit
control-port write of `v` and the two 16-bit control-port writes of `v >> 16`
and `v & 0xFFFF` both succeed, and the two resulting states agree in every
field other than the latch flag `ctrl_port_set`. -/
theorem ctrl_write32_matches_two_writes (p : Nat) (self : State) (v a a1 a2 : Nat)
    (hset : self.memory.ctrl_port_set = false) (hv : v < 2 ^ 32)
    (hhi : (v >>> 16) &&& 0xC000 ≠ 0x8000) (hlo : (v &&& 0xFFFF) &&& 0xC000 ≠ 0x8000)
    (ha : a = 0x04 ∨ a = 0x06) (ha1 : a1 = 0x04 ∨ a1 = 0x06) (ha2 : a2 = 0x04 ∨ a2 = 0x06) :
    ∃ s32 s16, ym7101_write p self a v 4 = .ok s32 ∧
      run_writes p self [(a1, v >>> 16, 2), (a2, v &&& 0xFFFF, 2)] = .ok s16 ∧
      ({ s16 with memory := { s16.memory with ctrl_port_set := false } } : State) =
        { s32 with memory := { s32.memory with ctrl_port_set := false } } := by
  obtain ⟨h1, h2⟩ := half_words_lt v hv
  have w32 := ym7101_write_long_setup p self v a hset hv hhi ha
  have w1 := ym7101_write_first_word p self (v >>> 16) a1 hset h1 hhi ha1
  have w2 := ym7101_write_second_word p
    { self with
      memory := { self.memory with ctrl_port_set := true, ctrl_port_buffer := v >>> 16 }
      status := (self.status &&& 0xFFFD) |||
        (if self.memory.transfer_dma_busy then DMA_BUSY else 0) }
    (v >>> 16) (v &&& 0xFFFF) a2 rfl rfl h2 hlo ha2
  refine ⟨_, _, w32,
    (run_writes_cons_ok p _ _ _ _ _ _ w1).trans (run_writes_one p _ _ _ _ _ w2), ?_⟩
  simp only [setup_transfer_latch_irrelevant, status_busy_bit_twice]

/-- C11, witness: from reset, the 32-bit write `0x40080000` and the 16-bit
writes `0x4008`, `0x0000`. -/
theorem ctrl_write32_matches_two_writes_witness :
    (ym7101_reset.memory.ctrl_port_set = false ∧ 0x40080000 < 2 ^ 32 ∧
      (0x40080000 >>> 16) &&& 0xC000 ≠ 0x8000 ∧ (0x40080000 &&& 0xFFFF) &&& 0xC000 ≠ 0x8000) ∧
    ∃ s32 s16, ym7101_write 8 ym7101_reset 0x04 0x40080000 4 = .ok s32 ∧
      run_writes 8 ym7101_reset
        [(0x04, 0x40080000 >>> 16, 2), (0x04, 0x40080000 &&& 0xFFFF, 2)] = .ok s16 ∧
      ({ s16 with memory := { s16.memory with ctrl_port_set := false } } : State) =
        { s32 with memory := { s32.memory with ctrl_port_set := false } } :=
  ⟨⟨rfl, by decide, by decide, by decide⟩,
   ctrl_write32_matches_two_writes 8 ym7101_reset 0x40080000 0x04 0x04 0x04 rfl
     (by decide) (by decide) (by decide) (Or.inl rfl) (Or.inl rfl) (Or.inl rfl)⟩

/-- C11, counterexample: from reset (latch empty) take `v = 0x00008000`, whose
upper half `0x0000` is not a register word. The 32-bit write decodes the pair
`(0x0000, 0x8000)` and selects pattern memory; of the two 16-bit writes the
second, `0x8000`, is a register write, so no target is selected. -/
theorem ctrl_write32_differs_when_low_half_is_register :
    ym7101_reset.memory.ctrl_port_set = false ∧
    (0x00008000 >>> 16) &&& 0xC000 ≠ 0x8000 ∧
    ∃ s32 s16, ym7101_write 8 ym7101_reset 0x04 0x00008000 4 = .ok s32 ∧
      run_writes 8 ym7101_reset
        [(0x04, 0x00008000 >>> 16, 2), (0x04, 0x00008000 &&& 0xFFFF, 2)] = .ok s16 ∧
      s32.memory.transfer_target = MEMORY_VRAM ∧
      s16.memory.transfer_target ≠ MEMORY_VRAM :=
  ⟨rfl, by decide, _, _, rfl, rfl, rfl, by decide⟩

/-- C12, as the code has it: for every state whose control latch holds a first
word `first` and every 32-bit value `v` whose upper 16 bits are a register word,
a 32-bit control-port write of `v` dispatches the upper half as a register write
and then asserts that the lower half is a register word too: if it is, it is
dispatched as a second register write, if not, the write fails. No transfer
setup is performed: after a write that succeeds the latch still holds
`first` and the transfer type, target and destination are as before. -/
theorem ctrl_write32_register_pair (p : Nat) (self : State) (first v addr : Nat)
    (hset : self.memory.ctrl_port_set = true) (hbuf : self.memory.ctrl_port_buffer = first)
    (hv : v < 2 ^ 32) (hhi : (v >>> 16) &&& 0xC000 = 0x8000)
    (haddr : addr = 0x04 ∨ addr = 0x06) :
    ym7101_write p self addr v 4 =
      (set_register self (v >>> 16) >>= fun s1 =>
        if (v &&& 0xFFFF) &&& 0xC000 = 0x8000 then set_register s1 (v &&& 0xFFFF)
        else .error Fault.unexpected_second_byte) ∧
    ((v &&& 0xFFFF) &&& 0xC000 ≠ 0x8000 → ∃ e, ym7101_write p self addr v 4 = .error e) ∧
    (∀ s2, ym7101_write p self addr v 4 = .ok s2 →
      s2.memory.ctrl_port_set = true ∧
      s2.memory.ctrl_port_buffer = first ∧
      s2.memory.transfer_type = self.memory.transfer_type ∧
      s2.memory.transfer_target = self.memory.transfer_target ∧
      s2.memory.transfer_dest_addr = self.memory.transfer_dest_addr) := by
  have hw := ym7101_write_long_register p self v addr hv hhi haddr
  refine ⟨hw, ?_, ?_⟩
  · intro hlo
    rw [hw]
    cases h1 : set_register self (v >>> 16) with
    | error e => exact ⟨e, rfl⟩
    | ok s1 =>
      refine ⟨Fault.unexpected_second_byte, ?_⟩
      simp only [bind, Except.bind, if_neg hlo]
  · intro s2 h
    rw [hw] at h
    cases h1 : set_register self (v >>> 16) with
    | error e => rw [h1] at h; cases h
    | ok s1 =>
      rw [h1] at h
      simp only [bind, Except.bind] at h
      by_cases hlo : (v &&& 0xFFFF) &&& 0xC000 = 0x8000
      · rw [if_pos hlo] at h
        obtain ⟨-, a2, a3, a4, a5, a6, -⟩ := set_register_frame self s1 (v >>> 16) h1
        obtain ⟨-, b2, b3, b4, b5, b6, -⟩ := set_register_frame s1 s2 (v &&& 0xFFFF) h
        exact ⟨by rw [b2, a2, hset], by rw [b3, a3, hbuf], by rw [b4, a4], by rw [b5, a5],
          by rw [b6, a6]⟩
      · rw [if_neg hlo] at h
        cases h

/-- C12, witness: the latch holds the first word `0x0000` and the 32-bit value
`0x8F028210` arrives: both halves are register writes (auto-increment := 2,
scroll-A base := 0x4000), the latch still holds its word and no target is
selected. -/
theorem ctrl_write32_register_pair_witness :
    (0x8F028210 < 2 ^ 32 ∧ (0x8F028210 >>> 16) &&& 0xC000 = 0x8000) ∧
    ∃ s2, ym7101_write 8
        { ym7101_reset with memory :=
            { ym7101_reset.memory with ctrl_port_set := true, ctrl_port_buffer := 0x0000 } }
        0x04 0x8F028210 4 = .ok s2 ∧
      s2.memory.transfer_auto_inc = 2 ∧ s2.scroll_a_addr = 0x4000 ∧
      s2.memory.ctrl_port_set = true ∧ s2.memory.transfer_target = 0 :=
  ⟨⟨by decide, by decide⟩,
   ⟨_, (ctrl_write32_register_pair 8
      { ym7101_reset with memory :=
          { ym7101_reset.memory with ctrl_port_set := true, ctrl_port_buffer := 0x0000 } }
      0x0000 0x8F028210 0x04 rfl rfl (by decide) (by decide) (Or.inl rfl)).1.trans rfl,
    rfl, rfl, rfl, rfl⟩⟩

/-- C12, counterexample: after the control-port write `0x0000` from reset the
latch holds the first word `0x0000`. The 32-bit write `0x8F020000` (upper half a
register word, lower half `0x0000`) fails on the assertion that the lower half
is a register word; the 32-bit write `0x8F028F02` succeeds and leaves the
target unselected, where the setup from `(0x0000, 0x8F02)` selects pattern
memory. -/
theorem ctrl_write32_does_not_feed_latch :
    ∃ s0, run_writes 8 ym7101_reset [(0x04, 0x0000, 2)] = .ok s0 ∧
      s0.memory.ctrl_port_set = true ∧ s0.memory.ctrl_port_buffer = 0x0000 ∧
      ym7101_write 8 s0 0x04 0x8F020000 4 = .error Fault.unexpected_second_byte ∧
      (∃ s2, ym7101_write 8 s0 0x04 0x8F028F02 4 = .ok s2 ∧
        s2.memory.transfer_target ≠ (setup_transfer s0.memory 0x0000 0x8F02).transfer_target) :=
  ⟨_, rfl, rfl, rfl, rfl, _, rfl, by decide⟩

/-! ## Fill arming -/

/-- C20: a data-port write that occurs while `transfer_type & 0x30 == 0x20`
arms FILL: it succeeds, the DMA mode becomes FILL, busy becomes true, and the
fill word becomes the low 16 bits of the written value for a 2-byte write and
the low byte of the written value (`value & 0xFF`) for any other width. The
widths are those the guard `g_assert(size <= 4)` of the fill branch admits,
which include every width `ym7101_ops` lets through (1 and 2). The same holds
through `ym7101_write` at offsets `0x00` and `0x02`. -/
theorem fill_arming_write (p : Nat) (self : Memory) (value size : Nat)
    (hfill : self.transfer_type &&& 0x30 = 0x20) (hsize : size ≤ 4) :
    (∃ m, write_data_port p self value size = .ok m ∧
      m.transfer_run = DMA_TYPE_FILL ∧ m.transfer_dma_busy = true ∧
      m.transfer_fill_word = (if size = 2 then value % 0x10000 else value &&& 0xFF)) ∧
    (∀ (s : State) (addr : Nat), s.memory = self → value < 2 ^ 32 →
      (addr = 0x00 ∨ addr = 0x02) →
      ∃ s1, ym7101_write p s addr value size = .ok s1 ∧
        s1.memory.transfer_run = DMA_TYPE_FILL ∧ s1.memory.transfer_dma_busy = true ∧
        s1.memory.transfer_fill_word =
          (if size = 2 then value % 0x10000 else value &&& 0xFF)) := by
  refine ⟨⟨_, write_data_port_fill p self value size hfill hsize, rfl, rfl, rfl⟩, ?_⟩
  intro s addr hs hv haddr
  subst hs
  have hv32 : value % 2 ^ 32 = value := Nat.mod_eq_of_lt hv
  have h := write_data_port_fill p s.memory (value % 2 ^ 32) size hfill hsize
  refine ⟨_, ym7101_write_data p s _ addr value size haddr h, rfl, rfl, ?_⟩
  show (if size = 2 then value % 2 ^ 32 % 0x10000 else value % 2 ^ 32 &&& 0xff) = _
  rw [hv32]

/-- C20, witness: in the fill state reached by the control pair `0x4000`,
`0x0080`, a 2-byte write of `0xABCD` latches `0xABCD` and a 1-byte write of
`0xCD` latches `0xCD`. -/
theorem fill_arming_write_witness :
    ((setup_transfer ym7101_reset.memory 0x4000 0x0080).transfer_type &&& 0x30 = 0x20 ∧
      2 ≤ 4 ∧ 1 ≤ 4) ∧
    (∃ m, write_data_port 8 (setup_transfer ym7101_reset.memory 0x4000 0x0080) 0xABCD 2 = .ok m ∧
      m.transfer_run = DMA_TYPE_FILL ∧ m.transfer_dma_busy = true ∧
      m.transfer_fill_word = 0xABCD) ∧
    (∃ m, write_data_port 8 (setup_transfer ym7101_reset.memory 0x4000 0x0080) 0xCD 1 = .ok m ∧
      m.transfer_run = DMA_TYPE_FILL ∧ m.transfer_dma_busy = true ∧
      m.transfer_fill_word = 0xCD) :=
  ⟨⟨by decide, by decide, by decide⟩,
   (fill_arming_write 8 (setup_transfer ym7101_reset.memory 0x4000 0x0080) 0xABCD 2
     (by decide) (by decide)).1,
   (fill_arming_write 8 (setup_transfer ym7101_reset.memory 0x4000 0x0080) 0xCD 1
     (by decide) (by decide)).1⟩

/-- The guard of the fill branch: a width above 4, which `ym7101_ops` never
lets through, stops at the assertion `size <= 4` before anything is latched. -/
theorem write_data_port_fill_guard (p : Nat) (self : Memory) (value size : Nat)
    (hfill : self.transfer_type &&& 0x30 = 0x20) (hsize : 4 < size) :
    write_data_port p self value size = .error Fault.fill_size_assert := by
  unfold write_data_port
  rw [if_pos hfill, if_neg (by omega)]
  rfl

/-! ## Reads -/

theorem mirror_eq (st : Nat) (h : st < 2 ^ 16) :
    ((st <<< 16) % 18446744073709551616) ||| st = st * 65536 + st := by
  have h1 : st <<< 16 = 2 ^ 16 * st := by rw [Nat.shiftLeft_eq, Nat.mul_comm]
  have h2 : (st <<< 16) % 18446744073709551616 = st <<< 16 :=
    Nat.mod_eq_of_lt (by rw [h1]; omega)
  rw [h2, h1, ← Nat.mul_add_lt_is_or h]
  omega

theorem and_FF_eq_mod (x : Nat) : x &&& 0xFF = x % 256 :=
  Nat.and_pow_two_sub_one_eq_mod x 8

theorem and_FFFF_eq_mod (x : Nat) : x &&& 0xFFFF = x % 65536 :=
  Nat.and_pow_two_sub_one_eq_mod x 16

theorem and_FFFFFF_eq_mod (x : Nat) : x &&& 0xFFFFFF = x % 16777216 :=
  Nat.and_pow_two_sub_one_eq_mod x 24

theorem and_FFFFFFFF_eq_mod (x : Nat) : x &&& 0xFFFFFFFF = x % 4294967296 :=
  Nat.and_pow_two_sub_one_eq_mod x 32

/-- The status read of `ym7101_read` against the spec-side byte sequence. -/
theorem ym7101_read_status_bytes (s : State) (a n data0 : Nat) (hst : s.status < 2 ^ 16)
    (ha : 4 ≤ a) (ha2 : a ≤ 7) (hn : 1 ≤ n) (hfit : (a - 4) + n ≤ 4) :
    ym7101_read s a n data0 =
      .ok (spec_big_endian (((spec_status_bytes s.status).drop (a - 4)).take n)) := by
  have hm := mirror_eq s.status hst
  have hn4 : n ≤ 4 := by omega
  obtain ⟨hi, lo, h1, h2, hs⟩ : ∃ hi lo, hi < 256 ∧ lo < 256 ∧ s.status = 256 * hi + lo :=
    ⟨s.status / 256, s.status % 256,
      by have h := hst; simp at h; omega, by omega, by omega⟩
  have e1 : (256 * hi + lo) / 256 = hi := by omega
  have e2 : (256 * hi + lo) % 256 = lo := by omega
  have e3 : hi % 256 = hi := by omega
  have m32 : ((256 * hi + lo) * 65536 + (256 * hi + lo)) % 4294967296
      = (256 * hi + lo) * 65536 + (256 * hi + lo) := by omega
  have m24 : ((256 * hi + lo) * 65536 + (256 * hi + lo)) % 16777216
      = lo * 65536 + (256 * hi + lo) := by omega
  have m16 : ((256 * hi + lo) * 65536 + (256 * hi + lo)) % 65536 = 256 * hi + lo := by omega
  have m8 : ((256 * hi + lo) * 65536 + (256 * hi + lo)) % 256 = lo := by omega
  interval_cases a <;> interval_cases n <;> first
    | (exfalso; omega)
    | (simp [ym7101_read, spec_status_bytes, spec_big_endian, hm, Nat.shiftRight_eq_div_pow,
        and_FF_eq_mod, and_FFFF_eq_mod, and_FFFFFF_eq_mod, and_FFFFFFFF_eq_mod, pure,
        Except.pure]
       simp only [hs, e1, e2, e3, m32, m24, m16, m8]
       try omega)

/-- C23: for every 16-bit status value, every offset `a` in `0x04..0x07` and
every width `n >= 1` with `(a - 4) + n <= 4`, `ym7101_read` returns the
big-endian integer formed by the `n` bytes starting at position `a - 4` of the
sequence [status high byte, status low byte, status high byte, status low
byte]. A 16-bit read at `0x04` or `0x06` returns the status word and a 32-bit
read at `0x04` returns `(st << 16) | st`. -/
theorem status_read_back (s : State) (a n data0 : Nat) (hst : s.status < 2 ^ 16)
    (ha : 4 ≤ a) (ha2 : a ≤ 7) (hn : 1 ≤ n) (hfit : (a - 4) + n ≤ 4) :
    ym7101_read s a n data0 =
      .ok (spec_big_endian (((spec_status_bytes s.status).drop (a - 4)).take n)) ∧
    ym7101_read s 0x04 2 data0 = .ok s.status ∧
    ym7101_read s 0x06 2 data0 = .ok s.status ∧
    ym7101_read s 0x04 4 data0 = .ok ((s.status <<< 16) ||| s.status) := by
  have hm := mirror_eq s.status hst
  have hst2 : s.status < 65536 := by have h := hst; simp at h; omega
  have hsh : s.status <<< 16 = s.status * 65536 := by rw [Nat.shiftLeft_eq]
  have hor : (s.status <<< 16) ||| s.status = s.status * 65536 + s.status := by
    have h2 : (s.status <<< 16) % 18446744073709551616 = s.status <<< 16 :=
      Nat.mod_eq_of_lt (by rw [hsh]; omega)
    rw [← h2]; exact hm
  have m32 : (s.status * 65536 + s.status) % 4294967296 = s.status * 65536 + s.status := by
    omega
  have m16 : (s.status * 65536 + s.status) % 65536 = s.status := by omega
  have d16 : (s.status * 65536 + s.status) / 65536 = s.status := by omega
  refine ⟨ym7101_read_status_bytes s a n data0 hst ha ha2 hn hfit, ?_, ?_, ?_⟩
  · simp [ym7101_read, hm, Nat.shiftRight_eq_div_pow, and_FFFFFFFF_eq_mod, pure, Except.pure,
      m32, d16]
  · simp [ym7101_read, hm, Nat.shiftRight_eq_div_pow, and_FFFF_eq_mod, pure, Except.pure,
      m16]
  · rw [hor]
    simp [ym7101_read, hm, and_FFFFFFFF_eq_mod, pure, Except.pure, m32]

/-- C23, witness: with the reset status `0x3600`, a 2-byte read at offset `0x05`
returns the bytes `00 36`, that is `0x0036`. -/
theorem status_read_back_witness :
    (ym7101_reset.status < 2 ^ 16 ∧ 4 ≤ 5 ∧ 5 ≤ 7 ∧ 1 ≤ 2 ∧ (5 - 4) + 2 ≤ 4) ∧
    ym7101_read ym7101_reset 0x05 2 0 = .ok 0x0036 ∧
    ym7101_read ym7101_reset 0x04 2 0 = .ok 0x3600 ∧
    ym7101_read ym7101_reset 0x04 4 0 = .ok 0x36003600 :=
  ⟨⟨by decide, by decide, by decide, by decide, by decide⟩,
   (status_read_back ym7101_reset 5 2 0 (by decide) (by decide) (by decide) (by decide)
     (by decide)).1.trans rfl,
   (status_read_back ym7101_reset 5 2 0 (by decide) (by decide) (by decide) (by decide)
     (by decide)).2.1.trans rfl,
   (status_read_back ym7101_reset 5 2 0 (by decide) (by decide) (by decide) (by decide)
     (by decide)).2.2.2.trans rfl⟩

theorem counter_word_eq (d h : Nat) (hd : d < 256) (hh : h < 256) :
    ((d <<< 8) % 18446744073709551616) ||| h = d * 256 + h := by
  have h1 : d <<< 8 = 2 ^ 8 * d := by rw [Nat.shiftLeft_eq, Nat.mul_comm]
  have h2 : (d <<< 8) % 18446744073709551616 = d <<< 8 :=
    Nat.mod_eq_of_lt (by rw [h1]; omega)
  rw [h2, h1, ← Nat.mul_add_lt_is_or (by simpa using hh)]
  omega

theorem low_byte_lt (y : Int) : (y % 256).toNat < 256 := by
  have h1 : 0 ≤ y % 256 := Int.emod_nonneg y (by decide)
  have h2 : y % 256 < 256 := Int.emod_lt_of_pos y (by decide)
  omega

/-- C24, as the code has it: a beam-counter read at offset `0x08` or `0x0A` of
at most one byte returns the current scanline `current_y & 0xFF`; a wider read
returns a 16-bit value whose high byte (bits 15..8) is the current scanline and
whose low byte is half of the current scanline, `(current_y >> 1) & 0xFF`. -/
theorem beam_counter_read (s : State) (a n data0 : Nat) (ha : a = 0x08 ∨ a = 0x0A) :
    (n ≤ 1 → ym7101_read s a n data0 = .ok (s.current_y % 256).toNat) ∧
    (1 < n → ∃ v, ym7101_read s a n data0 = .ok v ∧ v < 2 ^ 16 ∧
      v / 256 = (s.current_y % 256).toNat ∧
      v % 256 = ((s.current_y / 2) % 256).toNat) := by
  have hd := low_byte_lt s.current_y
  have hh := low_byte_lt (s.current_y / 2)
  have hw := counter_word_eq _ _ hd hh
  refine ⟨fun hn => ?_, fun hn => ⟨(s.current_y % 256).toNat * 256 +
    ((s.current_y / 2) % 256).toNat, ?_, by simp only [Nat.reducePow]; omega, by omega,
    by omega⟩⟩
  · have hn2 : ¬ n > 1 := by omega
    rcases ha with rfl | rfl <;> simp [ym7101_read, hn2, pure, Except.pure]
  · have hn2 : n > 1 := hn
    rcases ha with rfl | rfl <;> simp [ym7101_read, hn2, pure, Except.pure, hw]

/-- C24, witness: with `current_y = 2` a 2-byte read at `0x08` returns `0x0201`
and a 1-byte read returns `0x02`. -/
theorem beam_counter_read_witness :
    ym7101_read { ym7101_reset with current_y := 2 } 0x08 1 0 = .ok 0x02 ∧
    ∃ v, ym7101_read { ym7101_reset with current_y := 2 } 0x08 2 0 = .ok v ∧ v < 2 ^ 16 ∧
      v / 256 = 0x02 ∧ v % 256 = 0x01 :=
  ⟨(beam_counter_read { ym7101_reset with current_y := 2 } 0x08 1 0 (Or.inl rfl)).1
     (by decide),
   (beam_counter_read { ym7101_reset with current_y := 2 } 0x08 2 0 (Or.inl rfl)).2
     (by decide)⟩

/-- C24, counterexample: with `current_y = 2` a 2-byte read at `0x08` returns
`0x0201`: its low byte is 1, not the scanline 2, and its high byte is 2, not
half of the scanline. -/
theorem beam_counter_wide_read_bytes_swapped :
    ∃ v, ym7101_read { ym7101_reset with current_y := 2 } 0x08 2 0 = .ok v ∧
      v = 0x0201 ∧
      v % 256 ≠ ((2 : Int) % 256).toNat ∧
      (v / 256) % 256 ≠ (((2 : Int) / 2) % 256).toNat :=
  ⟨_, rfl, rfl, by decide, by decide⟩

/-! ## Reset -/

/-- C25: `ym7101_reset` maps every controller state to one fixed state, in
which every register, the three arrays, the control latch and the transfer
state are zero (DMA mode NONE, busy false) and the status word is `0x3600`:
FIFO-empty is set and DMA-busy, horizontal-blank, vertical-blank and
vertical-interrupt are clear. Resetting twice gives the state of resetting
once. -/
theorem reset_is_fixed_state (s t : State) :
    ym7101_reset_step s = ym7101_reset ∧
    ym7101_reset_step s = ym7101_reset_step t ∧
    ym7101_reset_step (ym7101_reset_step s) = ym7101_reset_step s ∧
    (ym7101_reset_step s).status = 0x3600 ∧
    (ym7101_reset_step s).status &&& FIFO_EMPTY = FIFO_EMPTY ∧
    (ym7101_reset_step s).status &&& DMA_BUSY = 0 ∧
    (ym7101_reset_step s).status &&& IN_HBLANK = 0 ∧
    (ym7101_reset_step s).status &&& IN_VBLANK = 0 ∧
    (ym7101_reset_step s).status &&& V_INTERRUPT = 0 ∧
    (∀ j, (ym7101_reset_step s).memory.vram j = 0) ∧
    (∀ j, (ym7101_reset_step s).memory.cram j = 0) ∧
    (∀ j, (ym7101_reset_step s).memory.vsram j = 0) ∧
    (ym7101_reset_step s).memory.ctrl_port_set = false ∧
    (ym7101_reset_step s).memory.ctrl_port_buffer = 0 ∧
    (ym7101_reset_step s).memory.transfer_run = DMA_TYPE_NONE ∧
    (ym7101_reset_step s).memory.transfer_dma_busy = false ∧
    (ym7101_reset_step s).memory.transfer_type = 0 ∧
    (ym7101_reset_step s).memory.transfer_target = 0 ∧
    (ym7101_reset_step s).memory.transfer_dest_addr = 0 ∧
    (ym7101_reset_step s).memory.transfer_auto_inc = 0 ∧
    (ym7101_reset_step s).memory.transfer_count = 0 ∧
    (ym7101_reset_step s).memory.transfer_remain = 0 ∧
    (ym7101_reset_step s).memory.transfer_src_addr = 0 ∧
    (ym7101_reset_step s).memory.transfer_bits = 0 ∧
    (ym7101_reset_step s).memory.transfer_fill_word = 0 ∧
    (ym7101_reset_step s).mode_1 = 0 ∧ (ym7101_reset_step s).mode_2 = 0 ∧
    (ym7101_reset_step s).mode_3 = 0 ∧ (ym7101_reset_step s).mode_4 = 0 ∧
    (ym7101_reset_step s).scroll_a_addr = 0 ∧ (ym7101_reset_step s).scroll_b_addr = 0 ∧
    (ym7101_reset_step s).window_addr = 0 ∧ (ym7101_reset_step s).sprites_addr = 0 ∧
    (ym7101_reset_step s).hscroll_addr = 0 ∧ (ym7101_reset_step s).background = 0 ∧
    (ym7101_reset_step s).h_int_lines = 0 ∧
    (ym7101_reset_step s).scroll_size = (0, 0) ∧
    (ym7101_reset_step s).window_values = (0, 0) ∧
    (ym7101_reset_step s).current_y = 0 := by
  have e : ∀ u, ym7101_reset_step u = ym7101_reset := fun _ => rfl
  have hs : ym7101_reset.status = 0x3600 := rfl
  rw [e s, e t, e ym7101_reset, hs]
  refine ⟨rfl, rfl, rfl, rfl, by decide, by decide, by decide, by decide, by decide,
   fun _ => rfl, fun _ => rfl, fun _ => rfl, rfl, rfl, rfl, rfl, rfl, rfl, rfl, rfl, rfl, rfl,
   rfl, rfl, rfl, rfl, rfl, rfl, rfl, rfl, rfl, rfl, rfl, rfl, rfl, rfl, rfl, rfl, rfl⟩

/-! ## Offsets and widths of port accesses -/

theorem ym7101_write_unmapped_high (p : Nat) (s : State) (a v z : Nat) (ha : 0x16 < a) :
    ym7101_write p s a v z = .error Fault.unhandled_ym7101_write := by
  unfold ym7101_write
  simp only []
  split <;> first
    | (exfalso; omega)
    | rfl

/-- C26: a write of any value and width at an offset from `0x11` to `0x16`
succeeds and returns the state unchanged, and a write at any offset outside
`0x00..0x07` and `0x11..0x16` fails with the unhandled-write assertion. -/
theorem sound_port_and_unmapped_writes (p : Nat) (s : State) (a v z : Nat) :
    (0x11 ≤ a ∧ a ≤ 0x16 → ym7101_write p s a v z = .ok s) ∧
    (0x07 < a ∧ (a < 0x11 ∨ 0x16 < a) →
      ym7101_write p s a v z = .error Fault.unhandled_ym7101_write) := by
  refine ⟨?_, ?_⟩
  · rintro ⟨h1, h2⟩
    interval_cases a <;> rfl
  · rintro ⟨h1, h2 | h2⟩
    · interval_cases a <;> rfl
    · exact ym7101_write_unmapped_high p s a v z h2

/-- C28, as the code has it: the data port is decoded at the offsets `0x00` and
`0x02` only. A write at `0x00` or `0x02` is `write_data_port` and a read there
is the (empty) data-port read, whatever the width; a read or write at `0x01` or
`0x03` fails as an unhandled access. -/
theorem data_port_offsets (p : Nat) (s : State) (v z data0 : Nat) :
    ym7101_write p s 0x01 v z = .error Fault.unhandled_ym7101_write ∧
    ym7101_write p s 0x03 v z = .error Fault.unhandled_ym7101_write ∧
    ym7101_read s 0x01 z data0 = .error Fault.unhandled_ym7101_read ∧
    ym7101_read s 0x03 z data0 = .error Fault.unhandled_ym7101_read ∧
    ym7101_write p s 0x00 v z =
      (write_data_port p s.memory (v % 2 ^ 32) z >>= fun m => pure { s with memory := m }) ∧
    ym7101_write p s 0x02 v z = ym7101_write p s 0x00 v z ∧
    ym7101_read s 0x00 z data0 = .ok data0 ∧
    ym7101_read s 0x02 z data0 = .ok data0 :=
  ⟨rfl, rfl, rfl, rfl, rfl, rfl, rfl, rfl⟩

/-- C28, counterexample: in the state reached from reset by the control pair
`0x4000`, `0x0000` a 1-byte write at offset `0x00` succeeds, while the same
write at offset `0x01` or `0x03`, and a 1-byte read there, fail as unhandled
accesses. -/
theorem data_port_odd_offsets_fault :
    ∃ s0 s1, run_writes 8 ym7101_reset [(0x04, 0x4000, 2), (0x04, 0x0000, 2)] = .ok s0 ∧
      ym7101_write 8 s0 0x00 0x55 1 = .ok s1 ∧
      ym7101_write 8 s0 0x01 0x55 1 = .error Fault.unhandled_ym7101_write ∧
      ym7101_write 8 s0 0x03 0x55 1 = .error Fault.unhandled_ym7101_write ∧
      ym7101_read s0 0x01 1 0 = .error Fault.unhandled_ym7101_read ∧
      ym7101_read s0 0x03 1 0 = .error Fault.unhandled_ym7101_read :=
  ⟨_, _, rfl, rfl, rfl, rfl, rfl, rfl⟩

theorem ym7101_write_non_register (p : Nat) (s : State) (addr v size : Nat)
    (haddr : addr = 0x04 ∨ addr = 0x06)
    (hnr : (if size = 2 then v else v >>> 16) &&& 0xC000 ≠ 0x8000) :
    ym7101_write p s addr v size =
      (write_control_port s.memory (v % 2 ^ 32) size >>= fun m =>
        pure { s with
          memory := m
          status := (s.status &&& 0xFFFD) ||| (if m.transfer_dma_busy then DMA_BUSY else 0) }) := by
  rcases haddr with rfl | rfl <;> simp only [ym7101_write, hnr, if_false]

theorem write_control_port_cases (m : Memory) (v size : Nat) :
    (size = 2 ∧ m.ctrl_port_set = true ∧
      write_control_port m v size = .ok (setup_transfer m m.ctrl_port_buffer (v % 0x10000))) ∨
    (size = 2 ∧ m.ctrl_port_set = false ∧
      write_control_port m v size =
        .ok { m with ctrl_port_set := true, ctrl_port_buffer := v % 0x10000 }) ∨
    (size = 4 ∧ m.ctrl_port_set = false ∧
      write_control_port m v size =
        .ok (setup_transfer m ((v >>> 16) % 0x10000) ((v &&& 0xffff) % 0x10000))) ∨
    (size = 4 ∧ m.ctrl_port_set = true ∧
      write_control_port m v size = .error Fault.unhandled_write_control_port) ∨
    (size ≠ 2 ∧ size ≠ 4 ∧
      write_control_port m v size = .error Fault.unhandled_write_control_port) := by
  by_cases h2 : size = 2
  · subst h2
    cases hset : m.ctrl_port_set
    · right; left
      exact ⟨rfl, rfl, by simp [write_control_port, hset, pure, Except.pure]⟩
    · left
      exact ⟨rfl, rfl, by simp [write_control_port, hset, pure, Except.pure]⟩
  · by_cases h4 : size = 4
    · subst h4
      cases hset : m.ctrl_port_set
      · right; right; left
        exact ⟨rfl, rfl, by simp [write_control_port, hset, pure, Except.pure]⟩
      · right; right; right; left
        exact ⟨rfl, rfl, by simp [write_control_port, hset, throw, throwThe, MonadExceptOf.throw]⟩
    · right; right; right; right
      refine ⟨h2, h4, ?_⟩
      unfold write_control_port
      split
      · exact absurd rfl h2
      · exact absurd rfl h4
      · rfl

/-- C27: a control-port write (offset `0x04` or `0x06`) whose classify word is
not a register word succeeds if and only if its width is 2, or its width is 4
and the latch flag is clear; in every other case it fails with the
unhandled-control-write assertion, in particular every 1-byte write and every
4-byte write while the latch flag is set. A 4-byte write whose upper half is a
register word and whose lower half is not fails as well. -/
theorem control_write_acceptance (p : Nat) (s : State) (addr v size : Nat)
    (haddr : addr = 0x04 ∨ addr = 0x06) :
    ((if size = 2 then v else v >>> 16) &&& 0xC000 ≠ 0x8000 →
      ((∃ s1, ym7101_write p s addr v size = .ok s1) ↔
        (size = 2 ∨ (size = 4 ∧ s.memory.ctrl_port_set = false))) ∧
      (¬ (size = 2 ∨ (size = 4 ∧ s.memory.ctrl_port_set = false)) →
        ym7101_write p s addr v size = .error Fault.unhandled_write_control_port)) ∧
    (v < 2 ^ 8 → ym7101_write p s addr v 1 = .error Fault.unhandled_write_control_port) ∧
    (v < 2 ^ 32 → (v >>> 16) &&& 0xC000 = 0x8000 → (v &&& 0xFFFF) &&& 0xC000 ≠ 0x8000 →
      ∃ e, ym7101_write p s addr v 4 = .error e) := by
  refine ⟨fun hnr => ?_, fun hv => ?_, fun hv hhi hlo => ?_⟩
  · rw [ym7101_write_non_register p s addr v size haddr hnr]
    rcases write_control_port_cases s.memory (v % 2 ^ 32) size with
      ⟨h1, h2, h3⟩ | ⟨h1, h2, h3⟩ | ⟨h1, h2, h3⟩ | ⟨h1, h2, h3⟩ | ⟨h1, h2, h3⟩ <;>
      rw [h3] <;> refine ⟨⟨fun _ => ?_, fun _ => ?_⟩, fun hno => ?_⟩
    · exact Or.inl h1
    · exact ⟨_, rfl⟩
    · exact absurd (Or.inl h1) hno
    · exact Or.inl h1
    · exact ⟨_, rfl⟩
    · exact absurd (Or.inl h1) hno
    · exact Or.inr ⟨h1, h2⟩
    · exact ⟨_, rfl⟩
    · exact absurd (Or.inr ⟨h1, h2⟩) hno
    · rename_i h
      obtain ⟨s1, hs1⟩ := h
      cases hs1
    · rename_i h
      rcases h with h | ⟨_, h⟩
      · omega
      · rw [h2] at h
        cases h
    · rfl
    · rename_i h
      obtain ⟨s1, hs1⟩ := h
      cases hs1
    · rename_i h
      rcases h with h | ⟨h, _⟩
      · exact absurd h h1
      · exact absurd h h2
    · rfl
  · have h0 : v >>> 16 = 0 := by
      rw [Nat.shiftRight_eq_div_pow]
      exact Nat.div_eq_of_lt (by omega)
    have hnr : (if (1 : Nat) = 2 then v else v >>> 16) &&& 0xC000 ≠ 0x8000 := by
      rw [if_neg (by decide), h0]
      decide
    rw [ym7101_write_non_register p s addr v 1 haddr hnr]
    rcases write_control_port_cases s.memory (v % 2 ^ 32) 1 with
      ⟨h1, _⟩ | ⟨h1, _⟩ | ⟨h1, _⟩ | ⟨h1, _⟩ | ⟨_, _, h3⟩
    · cases h1
    · cases h1
    · cases h1
    · cases h1
    · rw [h3]
      rfl
  · rw [ym7101_write_long_register p s v addr hv hhi haddr]
    cases hset : set_register s (v >>> 16) with
    | error e => exact ⟨e, rfl⟩
    | ok s1 =>
      refine ⟨Fault.unexpected_second_byte, ?_⟩
      simp only [bind, Except.bind, if_neg hlo]

/-- C27, witness: from reset a 2-byte control write of `0x4000` succeeds and
sets the latch; in the state it leaves a 4-byte write of `0x40000000` and a
1-byte write fail with the unhandled-control-write assertion, and the 4-byte
write `0x80040000`, whose lower half is not a register word, fails. -/
theorem control_write_acceptance_witness :
    (0x04 = 0x04 ∨ 0x04 = 0x06) ∧
    (∃ s1, ym7101_write 8 ym7101_reset 0x04 0x4000 2 = .ok s1) ∧
    ym7101_write 8
      { ym7101_reset with memory := { ym7101_reset.memory with ctrl_port_set := true } }
      0x04 0x40000000 4 = .error Fault.unhandled_write_control_port ∧
    ym7101_write 8 ym7101_reset 0x04 0x40 1 = .error Fault.unhandled_write_control_port ∧
    ∃ e, ym7101_write 8 ym7101_reset 0x04 0x80040000 4 = .error e :=
  ⟨Or.inl rfl,
   ((control_write_acceptance 8 ym7101_reset 0x04 0x4000 2 (Or.inl rfl)).1
      (by decide)).1.2 (Or.inl rfl),
   ((control_write_acceptance 8
      { ym7101_reset with memory := { ym7101_reset.memory with ctrl_port_set := true } }
      0x04 0x40000000 4 (Or.inl rfl)).1 (by decide)).2 (by decide),
   (control_write_acceptance 8 ym7101_reset 0x04 0x40 1 (Or.inl rfl)).2.1 (by decide),
   (control_write_acceptance 8 ym7101_reset 0x04 0x80040000 4 (Or.inl rfl)).2.2
     (by decide) (by decide) (by decide)⟩

/-! ## Steps of a run of port writes -/

theorem put_rest (m : Memory) (t : Bank) (i v : Nat) :
    { m.put t i v with vram := m.vram, cram := m.cram, vsram := m.vsram } = m := by
  cases t <;> rfl

theorem put_other_bank (m : Memory) (t b : Bank) (i v : Nat) (hb : b ≠ t) :
    (m.put t i v).bank b = m.bank b := by
  cases t <;> cases b <;> first
    | rfl
    | exact absurd rfl hb

theorem Memory.rest_trans (m m1 m2 : Memory)
    (h1 : { m1 with vram := m.vram, cram := m.cram, vsram := m.vsram } = m)
    (h2 : { m2 with vram := m1.vram, cram := m1.cram, vsram := m1.vsram } = m1) :
    { m2 with vram := m.vram, cram := m.cram, vsram := m.vsram } = m := by
  cases m
  cases m1
  cases m2
  simp only [Memory.mk.injEq] at h1 h2 ⊢
  obtain ⟨-, -, -, a4, a5, a6, a7, a8, a9, a10, a11, a12, a13, a14, a15, a16⟩ := h1
  obtain ⟨-, -, -, b4, b5, b6, b7, b8, b9, b10, b11, b12, b13, b14, b15, b16⟩ := h2
  exact ⟨trivial, trivial, trivial, b4.trans a4, b5.trans a5, b6.trans a6, b7.trans a7, b8.trans a8,
    b9.trans a9, b10.trans a10, b11.trans a11, b12.trans a12, b13.trans a13, b14.trans a14,
    b15.trans a15, b16.trans a16⟩

theorem Memory.rest_fields (m m1 : Memory)
    (h : { m1 with vram := m.vram, cram := m.cram, vsram := m.vsram } = m) :
    m1.transfer_type = m.transfer_type ∧
    m1.transfer_bits = m.transfer_bits ∧
    m1.transfer_count = m.transfer_count ∧
    m1.transfer_remain = m.transfer_remain ∧
    m1.transfer_src_addr = m.transfer_src_addr ∧
    m1.transfer_dest_addr = m.transfer_dest_addr ∧
    m1.transfer_auto_inc = m.transfer_auto_inc ∧
    m1.transfer_fill_word = m.transfer_fill_word ∧
    m1.transfer_run = m.transfer_run ∧
    m1.transfer_target = m.transfer_target ∧
    m1.transfer_dma_busy = m.transfer_dma_busy ∧
    m1.ctrl_port_buffer = m.ctrl_port_buffer ∧
    m1.ctrl_port_set = m.ctrl_port_set := by
  cases m
  cases m1
  simp only [Memory.mk.injEq] at h
  obtain ⟨-, -, -, a4, a5, a6, a7, a8, a9, a10, a11, a12, a13, a14, a15, a16⟩ := h
  exact ⟨a4, a5, a6, a7, a8, a9, a10, a11, a12, a13, a14, a15, a16⟩

theorem store_ok (m m1 : Memory) (t : Bank) (i v : Nat) (h : m.store t i v = .ok m1) :
    i < t.size ∧ m1 = m.put t i v := by
  unfold Memory.store at h
  by_cases hi : i < t.size
  · rw [if_pos hi] at h
    cases h
    exact ⟨hi, rfl⟩
  · rw [if_neg hi] at h
    cases h

theorem write_data_loop_succ (p : Nat) (t : Bank) (addr v size n i : Nat) (m : Memory) :
    write_data_loop p t addr v size (n + 1) i m =
      (extract32 v ((size - i - 1) * 8) 8 >>= fun b =>
        m.store t ((addr + i) % p) b >>= fun m1 =>
          write_data_loop p t addr v size n (i + 1) m1) := rfl

/-- What a completed run of the byte loop leaves: every field but the arrays is
unchanged, the arrays other than the target are unchanged, and a byte of the
target that differs lies inside the array at one of the indices the loop
computed. -/
theorem write_data_loop_frame (p : Nat) (t : Bank) (addr v size : Nat) :
    ∀ (n i : Nat) (m m2 : Memory), write_data_loop p t addr v size n i m = .ok m2 →
      { m2 with vram := m.vram, cram := m.cram, vsram := m.vsram } = m ∧
      (∀ b, b ≠ t → m2.bank b = m.bank b) ∧
      (∀ j, m2.bank t j = m.bank t j ∨
        (j < t.size ∧ ∃ k, i ≤ k ∧ k < i + n ∧ j = (addr + k) % p)) := by
  intro n
  induction n with
  | zero =>
    intro i m m2 h
    cases h
    exact ⟨rfl, fun _ _ => rfl, fun _ => Or.inl rfl⟩
  | succ n ih =>
    intro i m m2 h
    rw [write_data_loop_succ] at h
    cases hx : extract32 v ((size - i - 1) * 8) 8 with
    | error e => rw [hx] at h; cases h
    | ok b =>
      rw [hx] at h
      cases hs : m.store t ((addr + i) % p) b with
      | error e =>
        simp only [bind, Except.bind, hs] at h
        cases h
      | ok m1 =>
        simp only [bind, Except.bind, hs] at h
        obtain ⟨hlt, hm1⟩ := store_ok m m1 t _ b hs
        obtain ⟨f1, f2, f3⟩ := ih (i + 1) m1 m2 h
        refine ⟨Memory.rest_trans m m1 m2 (by rw [hm1]; exact put_rest m t _ b) f1, ?_, ?_⟩
        · intro b1 hb1
          rw [f2 b1 hb1, hm1, put_other_bank m t b1 _ b hb1]
        · intro j
          rcases f3 j with e | ⟨hj, k, hk1, hk2, hk3⟩
          · by_cases hji : j = (addr + i) % p
            · exact Or.inr ⟨hji ▸ hlt, i, le_refl _, by omega, hji⟩
            · left
              rw [e, hm1, put_bank, if_neg hji]
          · exact Or.inr ⟨hj, k, by omega, by omega, hk3⟩

/-- The byte loop never raises the transfer-target fault. -/
theorem write_data_loop_fault (p : Nat) (t : Bank) (addr v size : Nat) :
    ∀ (n i : Nat) (m : Memory) (e : Fault), write_data_loop p t addr v size n i m = .error e →
      e = Fault.extract32_assert ∨ e = Fault.store_out_of_bounds := by
  intro n
  induction n with
  | zero =>
    intro i m e h
    cases h
  | succ n ih =>
    intro i m e h
    rw [write_data_loop_succ] at h
    unfold extract32 Memory.store at h
    by_cases hx : 0 < 8 ∧ 8 + (size - i - 1) * 8 ≤ 32
    · rw [if_pos hx] at h
      by_cases hs : (addr + i) % p < t.size
      · simp only [bind, Except.bind, pure, Except.pure, if_pos hs] at h
        exact ih _ _ _ h
      · simp only [bind, Except.bind, pure, Except.pure, if_neg hs, throw, throwThe,
          MonadExceptOf.throw] at h
        cases h
        exact Or.inr rfl
    · rw [if_neg hx] at h
      cases h
      exact Or.inl rfl

/-- For a width of at most 4 bytes and a pointer size of at most 80 the byte
loop completes. -/
theorem write_data_loop_ok (p : Nat) (t : Bank) (addr v size : Nat) (hp : 0 < p)
    (hp2 : p ≤ 80) (hsize : size ≤ 4) :
    ∀ (n i : Nat) (m : Memory), i + n ≤ size →
      ∃ m2, write_data_loop p t addr v size n i m = .ok m2 := by
  intro n
  induction n with
  | zero => exact fun i m _ => ⟨m, rfl⟩
  | succ n ih =>
    intro i m hin
    have hx : 0 < 8 ∧ 8 + (size - i - 1) * 8 ≤ 32 := by omega
    have hlt : (addr + i) % p < p := Nat.mod_lt _ hp
    have hs : (addr + i) % p < t.size := by
      cases t <;> simp only [Bank.size] <;> omega
    obtain ⟨m2, h2⟩ := ih (i + 1) (m.put t ((addr + i) % p)
      ((v >>> ((size - i - 1) * 8)) &&& (0xFFFFFFFF >>> (32 - 8)))) (by omega)
    refine ⟨m2, ?_⟩
    rw [write_data_loop_succ]
    unfold extract32 Memory.store
    rw [if_pos hx]
    simp only [bind, Except.bind, pure, Except.pure, if_pos hs]
    exact h2

theorem write_data_port_non_fill_ok (p : Nat) (m m2 : Memory) (v z : Nat)
    (hfill : m.transfer_type &&& 0x30 ≠ 0x20) (h : write_data_port p m v z = .ok m2) :
    ∃ t m1, get_transfer_target m = .ok t ∧
      write_data_loop p t m.transfer_dest_addr v z z 0 m = .ok m1 ∧
      m2 = { m1 with
        transfer_dest_addr := (m1.transfer_dest_addr + m1.transfer_auto_inc) % 2 ^ 32 } := by
  unfold write_data_port at h
  rw [if_neg hfill] at h
  cases ht : get_transfer_target m with
  | error e =>
    simp only [bind, Except.bind, ht] at h
    cases h
  | ok t =>
    cases hl : write_data_loop p t m.transfer_dest_addr v z z 0 m with
    | error e =>
      simp only [bind, Except.bind, ht, hl] at h
      cases h
    | ok m1 =>
      simp only [bind, Except.bind, ht, hl, pure, Except.pure] at h
      cases h
      exact ⟨t, m1, rfl, hl, rfl⟩

/-- A data-port write that returns leaves the target and the transfer type as
they were, and either leaves the DMA mode and the busy flag as they were or
sets them to FILL and true. -/
theorem write_data_port_cases (p : Nat) (m m2 : Memory) (v z : Nat)
    (h : write_data_port p m v z = .ok m2) :
    m2.transfer_target = m.transfer_target ∧
    ((m2.transfer_run = m.transfer_run ∧ m2.transfer_dma_busy = m.transfer_dma_busy) ∨
      (m2.transfer_run = DMA_TYPE_FILL ∧ m2.transfer_dma_busy = true)) := by
  by_cases hfill : m.transfer_type &&& 0x30 = 0x20
  · by_cases hz : z ≤ 4
    · rw [write_data_port_fill p m v z hfill hz] at h
      cases h
      exact ⟨rfl, Or.inr ⟨rfl, rfl⟩⟩
    · unfold write_data_port at h
      rw [if_pos hfill, if_neg hz] at h
      cases h
  · obtain ⟨t, m1, _, hl, rfl⟩ := write_data_port_non_fill_ok p m m2 v z hfill h
    obtain ⟨f1, _, _⟩ := write_data_loop_frame p t _ v z z 0 m m1 hl
    obtain ⟨_, _, _, _, _, _, _, _, g2, g1, g3, _, _⟩ := Memory.rest_fields m m1 f1
    exact ⟨g1, Or.inl ⟨g2, g3⟩⟩

theorem ym7101_write_data_inv (p : Nat) (s s1 : State) (a v z : Nat)
    (haddr : a = 0x00 ∨ a = 0x02) (h : ym7101_write p s a v z = .ok s1) :
    ∃ m, write_data_port p s.memory (v % 2 ^ 32) z = .ok m ∧ s1 = { s with memory := m } := by
  have e : ym7101_write p s a v z =
      (write_data_port p s.memory (v % 2 ^ 32) z >>= fun m => pure { s with memory := m }) := by
    rcases haddr with rfl | rfl <;> rfl
  rw [e] at h
  cases hw : write_data_port p s.memory (v % 2 ^ 32) z with
  | error e1 =>
    rw [hw] at h
    cases h
  | ok m =>
    rw [hw] at h
    cases h
    exact ⟨m, rfl, rfl⟩

theorem ym7101_write_addr_cases (p : Nat) (s : State) (a v z : Nat) :
    a = 0x00 ∨ a = 0x02 ∨ a = 0x04 ∨ a = 0x06 ∨
      (a ≠ 0x04 ∧ a ≠ 0x06 ∧
        (ym7101_write p s a v z = .ok s ∨
          ym7101_write p s a v z = .error Fault.unhandled_ym7101_write)) := by
  by_cases h0 : a = 0
  · exact Or.inl h0
  by_cases h2 : a = 2
  · exact Or.inr (Or.inl h2)
  by_cases h4 : a = 4
  · exact Or.inr (Or.inr (Or.inl h4))
  by_cases h6 : a = 6
  · exact Or.inr (Or.inr (Or.inr (Or.inl h6)))
  refine Or.inr (Or.inr (Or.inr (Or.inr ⟨h4, h6, ?_⟩)))
  by_cases hle : a ≤ 0x16
  · interval_cases a <;> first
      | exact absurd rfl h0
      | exact absurd rfl h2
      | exact absurd rfl h4
      | exact absurd rfl h6
      | exact Or.inl rfl
      | exact Or.inr rfl
  · exact Or.inr (ym7101_write_unmapped_high p s a v z (by omega))

theorem spec_completes_setup_eq (s : State) (a v z : Nat) (haddr : a = 0x04 ∨ a = 0x06)
    (hnr : (if z = 2 then v else v >>> 16) &&& 0xC000 ≠ 0x8000) :
    spec_completes_setup s a v z =
      ((z == 2 && s.memory.ctrl_port_set) || (z == 4 && !s.memory.ctrl_port_set)) := by
  rcases haddr with rfl | rfl <;> simp [spec_completes_setup, hnr]

theorem setup_transfer_run_cases (m : Memory) (f w : Nat) :
    ((setup_transfer m f w).transfer_run = m.transfer_run ∧
      (setup_transfer m f w).transfer_dma_busy = m.transfer_dma_busy) ∨
    ((setup_transfer m f w).transfer_run = DMA_TYPE_MEMORY ∧
      (setup_transfer m f w).transfer_dma_busy = true) ∨
    ((setup_transfer m f w).transfer_run = DMA_TYPE_COPY ∧
      (setup_transfer m f w).transfer_dma_busy = true) := by
  have h := setup_transfer_arming m f w
  split_ifs at h
  · exact Or.inr (Or.inr ⟨congrArg Prod.fst h, congrArg Prod.snd h⟩)
  · exact Or.inr (Or.inl ⟨congrArg Prod.fst h, congrArg Prod.snd h⟩)
  · exact Or.inl ⟨congrArg Prod.fst h, congrArg Prod.snd h⟩
  · exact Or.inl ⟨congrArg Prod.fst h, congrArg Prod.snd h⟩

theorem setup_transfer_target_valid (m : Memory) (f w : Nat) :
    (setup_transfer m f w).transfer_target = MEMORY_VRAM ∨
    (setup_transfer m f w).transfer_target = MEMORY_CRAM ∨
    (setup_transfer m f w).transfer_target = MEMORY_VSRAM := by
  have h := setup_transfer_target m f w
  split_ifs at h
  · exact Or.inl h
  · exact Or.inr (Or.inr h)
  · exact Or.inr (Or.inl h)

theorem ym7101_write_register (p : Nat) (s : State) (a v z : Nat)
    (haddr : a = 0x04 ∨ a = 0x06)
    (hreg : (if z = 2 then v else v >>> 16) &&& 0xC000 = 0x8000) :
    ym7101_write p s a v z =
      if z = 2 then set_register s (v % 0x10000)
      else set_register s ((v >>> 16) % 0x10000) >>= fun s1 =>
        if (v &&& 0xffff) &&& 0xC000 = 0x8000 then set_register s1 ((v &&& 0xffff) % 0x10000)
        else throw Fault.unexpected_second_byte := by
  rcases haddr with rfl | rfl <;> simp only [ym7101_write, hreg, if_true]

/-- One successful port write either completes a transfer setup, and then the
memory is what `setup_transfer` returns, or it leaves the target as it was and
the DMA mode and busy flag either as they were or at FILL and true. -/
theorem ym7101_write_control_step (p : Nat) (s s1 : State) (a v z : Nat)
    (haddr : a = 0x04 ∨ a = 0x06) (h : ym7101_write p s a v z = .ok s1) :
    (spec_completes_setup s a v z = true ∧
      ∃ f w, s1.memory = setup_transfer s.memory f w) ∨
    (spec_completes_setup s a v z = false ∧
      s1.memory.transfer_target = s.memory.transfer_target ∧
      ((s1.memory.transfer_run = s.memory.transfer_run ∧
          s1.memory.transfer_dma_busy = s.memory.transfer_dma_busy) ∨
        (s1.memory.transfer_run = DMA_TYPE_FILL ∧ s1.memory.transfer_dma_busy = true))) := by
  by_cases hreg : (if z = 2 then v else v >>> 16) &&& 0xC000 = 0x8000
  · have hc : spec_completes_setup s a v z = false := by
      simp [spec_completes_setup, hreg]
    refine Or.inr ⟨hc, ?_⟩
    rw [ym7101_write_register p s a v z haddr hreg] at h
    by_cases hz : z = 2
    · rw [if_pos hz] at h
      obtain ⟨_, _, _, _, f5, _, f7, f8, _⟩ := set_register_frame s s1 _ h
      exact ⟨f5, Or.inl ⟨f7, f8⟩⟩
    · rw [if_neg hz] at h
      cases h1 : set_register s ((v >>> 16) % 0x10000) with
      | error e =>
        rw [h1] at h
        cases h
      | ok s2 =>
        rw [h1] at h
        simp only [bind, Except.bind] at h
        by_cases hlo : (v &&& 0xffff) &&& 0xC000 = 0x8000
        · rw [if_pos hlo] at h
          obtain ⟨_, _, _, _, f5, _, f7, f8, _⟩ := set_register_frame s s2 _ h1
          obtain ⟨_, _, _, _, g5, _, g7, g8, _⟩ := set_register_frame s2 s1 _ h
          exact ⟨g5.trans f5, Or.inl ⟨g7.trans f7, g8.trans f8⟩⟩
        · rw [if_neg hlo] at h
          cases h
  · have hc := spec_completes_setup_eq s a v z haddr hreg
    rw [ym7101_write_non_register p s a v z haddr hreg] at h
    rcases write_control_port_cases s.memory (v % 2 ^ 32) z with
      ⟨h1, h2, h3⟩ | ⟨h1, h2, h3⟩ | ⟨h1, h2, h3⟩ | ⟨h1, h2, h3⟩ | ⟨h1, h2, h3⟩ <;>
      rw [h3] at h
    · cases h
      subst h1
      rw [h2] at hc
      exact Or.inl ⟨hc, _, _, rfl⟩
    · cases h
      subst h1
      rw [h2] at hc
      exact Or.inr ⟨hc, rfl, Or.inl ⟨rfl, rfl⟩⟩
    · cases h
      subst h1
      rw [h2] at hc
      exact Or.inl ⟨hc, _, _, rfl⟩
    · cases h
    · cases h

theorem ym7101_write_step (p : Nat) (s s1 : State) (a v z : Nat)
    (h : ym7101_write p s a v z = .ok s1) :
    (spec_completes_setup s a v z = true ∧
      ∃ f w, s1.memory = setup_transfer s.memory f w) ∨
    (spec_completes_setup s a v z = false ∧
      s1.memory.transfer_target = s.memory.transfer_target ∧
      ((s1.memory.transfer_run = s.memory.transfer_run ∧
          s1.memory.transfer_dma_busy = s.memory.transfer_dma_busy) ∨
        (s1.memory.transfer_run = DMA_TYPE_FILL ∧ s1.memory.transfer_dma_busy = true))) := by
  rcases ym7101_write_addr_cases p s a v z with h0 | h0 | h0 | h0 | ⟨h4, h6, h0⟩
  · obtain ⟨m, hm, rfl⟩ := ym7101_write_data_inv p s s1 a v z (Or.inl h0) h
    subst h0
    exact Or.inr ⟨rfl, write_data_port_cases p s.memory m _ z hm⟩
  · obtain ⟨m, hm, rfl⟩ := ym7101_write_data_inv p s s1 a v z (Or.inr h0) h
    subst h0
    exact Or.inr ⟨rfl, write_data_port_cases p s.memory m _ z hm⟩
  · exact ym7101_write_control_step p s s1 a v z (Or.inl h0) h
  · exact ym7101_write_control_step p s s1 a v z (Or.inr h0) h
  · have hc : spec_completes_setup s a v z = false := by
      simp [spec_completes_setup, h4, h6]
    rcases h0 with h0 | h0
    · rw [h0] at h
      cases h
      exact Or.inr ⟨hc, rfl, Or.inl ⟨rfl, rfl⟩⟩
    · rw [h0] at h
      cases h

/-- A property of the state that holds at the start of a run of port writes
and that every successful write preserves holds at the end of the run. -/
theorem run_writes_invariant (p : Nat) (P : State → Prop)
    (hstep : ∀ s s1 a v z, P s → ym7101_write p s a v z = .ok s1 → P s1) :
    ∀ (ws : List (Nat × Nat × Nat)) (s s1 : State), P s → run_writes p s ws = .ok s1 → P s1 := by
  intro ws
  induction ws with
  | nil =>
    intro s s1 hs h
    cases h
    exact hs
  | cons w rest ih =>
    intro s s1 hs h
    obtain ⟨a, v, z⟩ := w
    cases hw : ym7101_write p s a v z with
    | error e =>
      simp only [run_writes, hw] at h
      cases h
    | ok s2 =>
      rw [run_writes_cons_ok p s s2 a v z rest hw] at h
      exact ih s2 s1 (hstep s s2 a v z hs hw) h

theorem busy_iff_step (p : Nat) (s s1 : State) (a v z : Nat)
    (hs : s.memory.transfer_dma_busy = true ↔ s.memory.transfer_run ≠ DMA_TYPE_NONE)
    (h : ym7101_write p s a v z = .ok s1) :
    s1.memory.transfer_dma_busy = true ↔ s1.memory.transfer_run ≠ DMA_TYPE_NONE := by
  rcases ym7101_write_step p s s1 a v z h with ⟨_, f, w, hm⟩ | ⟨_, _, ⟨h1, h2⟩ | ⟨h1, h2⟩⟩
  · rw [hm]
    rcases setup_transfer_run_cases s.memory f w with ⟨h1, h2⟩ | ⟨h1, h2⟩ | ⟨h1, h2⟩
    · rw [h1, h2]
      exact hs
    · rw [h1, h2]
      exact ⟨fun _ => by decide, fun _ => rfl⟩
    · rw [h1, h2]
      exact ⟨fun _ => by decide, fun _ => rfl⟩
  · rw [h1, h2]
    exact hs
  · rw [h1, h2]
    exact ⟨fun _ => by decide, fun _ => rfl⟩

/-- C21: in every state reached from reset by a sequence of port writes the
busy flag `transfer_dma_busy` is true if and only if the DMA mode
`transfer_run` is other than NONE; and `set_dma_mode` leaves a state with this
property for every memory and every mode argument. -/
theorem busy_iff_dma_running (p : Nat) (ws : List (Nat × Nat × Nat)) (s : State)
    (h : run_writes p ym7101_reset ws = .ok s) :
    (s.memory.transfer_dma_busy = true ↔ s.memory.transfer_run ≠ DMA_TYPE_NONE) ∧
    (∀ (m : Memory) (mode : Nat),
      (set_dma_mode m mode).transfer_dma_busy = true ↔
        (set_dma_mode m mode).transfer_run ≠ DMA_TYPE_NONE) := by
  refine ⟨?_, ?_⟩
  · exact run_writes_invariant p
      (fun s => s.memory.transfer_dma_busy = true ↔ s.memory.transfer_run ≠ DMA_TYPE_NONE)
      (fun s s1 a v z hs hw => busy_iff_step p s s1 a v z hs hw) ws ym7101_reset s
      ⟨fun hb => Bool.noConfusion hb, fun hr => absurd rfl hr⟩ h
  · intro m mode
    cases mode with
    | zero => exact ⟨fun hb => Bool.noConfusion hb, fun hr => absurd rfl hr⟩
    | succ k => exact ⟨fun _ => Nat.succ_ne_zero k, fun _ => rfl⟩

/-- C21, witness: the run that sets register `0x17` to `0x80`, completes the
control pair `0x4000`, `0x0080` and writes the word `0xABCD` to the data port
ends in a state whose busy flag is true and whose DMA mode is FILL. -/
theorem busy_iff_dma_running_witness :
    ∃ s, run_writes 8 ym7101_reset
        [(0x04, 0x9780, 2), (0x04, 0x4000, 2), (0x04, 0x0080, 2), (0x00, 0xABCD, 2)] = .ok s ∧
      s.memory.transfer_run = DMA_TYPE_FILL ∧
      (s.memory.transfer_dma_busy = true ↔ s.memory.transfer_run ≠ DMA_TYPE_NONE) :=
  ⟨_, rfl, rfl, (busy_iff_dma_running 8
    [(0x04, 0x9780, 2), (0x04, 0x4000, 2), (0x04, 0x0080, 2), (0x00, 0xABCD, 2)] _ rfl).1⟩

/-- C22, the code at a failing input. From reset, the register word `0x9780`
(register `0x17` := `0x80`), the control pair `0x4000`, `0x0080` and the 16-bit
data-port write `0xABCD` all succeed. The pair selects a fill transfer without
starting a DMA mode, so the control-port path leaves the busy flag and the
DMA-busy status bit clear; the data-port write then sets the busy flag and the
mode FILL, and the status word stays `0x3600`, with bit `0x0002` clear. -/
theorem status_busy_bit_stale_after_fill_write :
    ∃ s0 s, run_writes 8 ym7101_reset
        [(0x04, 0x9780, 2), (0x04, 0x4000, 2), (0x04, 0x0080, 2)] = .ok s0 ∧
      s0.memory.transfer_dma_busy = false ∧ s0.status &&& DMA_BUSY = 0 ∧
      ym7101_write 8 s0 0x00 0xABCD 2 = .ok s ∧
      s.memory.transfer_dma_busy = true ∧
      s.status = 0x3600 ∧
      s.status &&& DMA_BUSY = 0 ∧
      ¬ (s.status &&& DMA_BUSY ≠ 0 ↔ s.memory.transfer_dma_busy = true) :=
  ⟨_, _, rfl, rfl, by decide, rfl, rfl, rfl, by decide, by decide⟩

/-! ## The transfer target and the frame of a data-port write -/

theorem get_transfer_target_cases (m : Memory) :
    (m.transfer_target = MEMORY_VRAM ∧ get_transfer_target m = .ok Bank.vram) ∨
    (m.transfer_target = MEMORY_CRAM ∧ get_transfer_target m = .ok Bank.cram) ∨
    (m.transfer_target = MEMORY_VSRAM ∧ get_transfer_target m = .ok Bank.vsram) ∨
    ((m.transfer_target ≠ MEMORY_VRAM ∧ m.transfer_target ≠ MEMORY_CRAM ∧
        m.transfer_target ≠ MEMORY_VSRAM) ∧
      get_transfer_target m = .error Fault.unhandled_transfer_target) := by
  by_cases h1 : m.transfer_target = 1
  · exact Or.inl ⟨h1, by unfold get_transfer_target; rw [h1]; rfl⟩
  by_cases h2 : m.transfer_target = 2
  · exact Or.inr (Or.inl ⟨h2, by unfold get_transfer_target; rw [h2]; rfl⟩)
  by_cases h3 : m.transfer_target = 3
  · exact Or.inr (Or.inr (Or.inl ⟨h3, by unfold get_transfer_target; rw [h3]; rfl⟩))
  refine Or.inr (Or.inr (Or.inr ⟨⟨h1, h2, h3⟩, ?_⟩))
  unfold get_transfer_target
  split
  · rename_i h
    exact absurd h h1
  · rename_i h
    exact absurd h h2
  · rename_i h
    exact absurd h h3
  · rfl

/-- A data-port write raises the transfer-target fault exactly when the
transfer is not a fill and the target is none of the three arrays. -/
theorem write_data_port_target_fault (p : Nat) (m : Memory) (v z : Nat) :
    write_data_port p m v z = .error Fault.unhandled_transfer_target ↔
      (m.transfer_type &&& 0x30 ≠ 0x20 ∧ m.transfer_target ≠ MEMORY_VRAM ∧
        m.transfer_target ≠ MEMORY_CRAM ∧ m.transfer_target ≠ MEMORY_VSRAM) := by
  by_cases hfill : m.transfer_type &&& 0x30 = 0x20
  · refine ⟨fun h => ?_, fun h => absurd hfill h.1⟩
    unfold write_data_port at h
    rw [if_pos hfill] at h
    by_cases hz : z ≤ 4
    · rw [if_pos hz] at h
      cases h
    · rw [if_neg hz] at h
      cases h
  · have e : write_data_port p m v z =
        (get_transfer_target m >>= fun t =>
          write_data_loop p t m.transfer_dest_addr v z z 0 m >>= fun s1 =>
            pure { s1 with
              transfer_dest_addr := (s1.transfer_dest_addr + s1.transfer_auto_inc) % 2 ^ 32 }) := by
      unfold write_data_port
      rw [if_neg hfill]
    rw [e]
    have key : ∀ t, get_transfer_target m = .ok t →
        (write_data_loop p t m.transfer_dest_addr v z z 0 m >>= fun s1 =>
          (pure { s1 with
            transfer_dest_addr := (s1.transfer_dest_addr + s1.transfer_auto_inc) % 2 ^ 32 } :
            Except Fault Memory)) ≠ .error Fault.unhandled_transfer_target := by
      intro t _ h
      cases hl : write_data_loop p t m.transfer_dest_addr v z z 0 m with
      | error e1 =>
        rw [hl] at h
        have he : e1 = Fault.unhandled_transfer_target := by
          cases h
          rfl
        rcases write_data_loop_fault p t _ v z z 0 m e1 hl with h1 | h1 <;>
          rw [h1] at he <;> cases he
      | ok m1 =>
        rw [hl] at h
        cases h
    rcases get_transfer_target_cases m with ⟨h1, h2⟩ | ⟨h1, h2⟩ | ⟨h1, h2⟩ | ⟨h1, h2⟩
    · rw [h2]
      exact ⟨fun h => absurd h (key _ h2), fun h => absurd h1 h.2.1⟩
    · rw [h2]
      exact ⟨fun h => absurd h (key _ h2), fun h => absurd h1 h.2.2.1⟩
    · rw [h2]
      exact ⟨fun h => absurd h (key _ h2), fun h => absurd h1 h.2.2.2⟩
    · rw [h2]
      exact ⟨fun _ => ⟨hfill, h1⟩, fun _ => rfl⟩

/-- A run of port writes that starts with a valid target, or in which a write
completes a transfer setup, ends with a valid target. -/
theorem target_valid_after_setup (p : Nat) :
    ∀ (ws : List (Nat × Nat × Nat)) (s0 s : State), run_writes p s0 ws = .ok s →
      ((s0.memory.transfer_target = MEMORY_VRAM ∨ s0.memory.transfer_target = MEMORY_CRAM ∨
          s0.memory.transfer_target = MEMORY_VSRAM) ∨ 0 < spec_setup_count p s0 ws) →
      (s.memory.transfer_target = MEMORY_VRAM ∨ s.memory.transfer_target = MEMORY_CRAM ∨
        s.memory.transfer_target = MEMORY_VSRAM) := by
  intro ws
  induction ws with
  | nil =>
    intro s0 s h hv
    cases h
    rcases hv with hv | hv
    · exact hv
    · exact absurd hv (Nat.lt_irrefl 0)
  | cons w rest ih =>
    intro s0 s h hv
    obtain ⟨a, v, z⟩ := w
    cases hw : ym7101_write p s0 a v z with
    | error e =>
      simp only [run_writes, hw] at h
      cases h
    | ok s1 =>
      rw [run_writes_cons_ok p s0 s1 a v z rest hw] at h
      have hc : spec_setup_count p s0 ((a, v, z) :: rest) =
          (if spec_completes_setup s0 a v z then 1 else 0) + spec_setup_count p s1 rest := by
        simp only [spec_setup_count, hw]
      rw [hc] at hv
      rcases ym7101_write_step p s0 s1 a v z hw with ⟨_, f, w1, hm⟩ | ⟨hno, ht, _⟩
      · refine ih s1 s h (Or.inl ?_)
        rw [hm]
        exact setup_transfer_target_valid s0.memory f w1
      · rcases hv with hv | hv
        · refine ih s1 s h (Or.inl ?_)
          rw [ht]
          exact hv
        · rw [hno] at hv
          exact ih s1 s h (Or.inr (by simpa using hv))

/-- C29: a non-fill data-port write fails with the unhandled-transfer-target
fault exactly when `transfer_target` is none of the three arrays;
`setup_transfer` always leaves a target that `get_transfer_target` accepts; in
a state reached from reset by a run of port writes a data-port write can fail
with that fault only if no write of the run completed a transfer setup; and a
data-port write at offset `0x00` or `0x02` in the reset state fails with that
fault. -/
theorem unhandled_target_only_before_setup (p : Nat) :
    (∀ (m : Memory) (v z : Nat), m.transfer_type &&& 0x30 ≠ 0x20 →
      (write_data_port p m v z = .error Fault.unhandled_transfer_target ↔
        (m.transfer_target ≠ MEMORY_VRAM ∧ m.transfer_target ≠ MEMORY_CRAM ∧
          m.transfer_target ≠ MEMORY_VSRAM))) ∧
    (∀ (m : Memory) (f w : Nat),
      ((setup_transfer m f w).transfer_target = MEMORY_VRAM ∨
        (setup_transfer m f w).transfer_target = MEMORY_CRAM ∨
        (setup_transfer m f w).transfer_target = MEMORY_VSRAM) ∧
      ∃ t, get_transfer_target (setup_transfer m f w) = .ok t) ∧
    (∀ (ws : List (Nat × Nat × Nat)) (s : State) (a v z : Nat),
      run_writes p ym7101_reset ws = .ok s → (a = 0x00 ∨ a = 0x02) →
      ym7101_write p s a v z = .error Fault.unhandled_transfer_target →
      spec_setup_count p ym7101_reset ws = 0) ∧
    (∀ (v z : Nat),
      ym7101_write p ym7101_reset 0x00 v z = .error Fault.unhandled_transfer_target ∧
      ym7101_write p ym7101_reset 0x02 v z = .error Fault.unhandled_transfer_target) := by
  refine ⟨fun m v z hfill => ?_, fun m f w => ?_, fun ws s a v z hrun haddr hfault => ?_,
    fun v z => ⟨rfl, rfl⟩⟩
  · rw [write_data_port_target_fault]
    exact ⟨fun h => h.2, fun h => ⟨hfill, h⟩⟩
  · refine ⟨setup_transfer_target_valid m f w, ?_⟩
    rcases get_transfer_target_cases (setup_transfer m f w) with
      ⟨_, h⟩ | ⟨_, h⟩ | ⟨_, h⟩ | ⟨⟨h1, h2, h3⟩, _⟩
    · exact ⟨_, h⟩
    · exact ⟨_, h⟩
    · exact ⟨_, h⟩
    · rcases setup_transfer_target_valid m f w with h | h | h
      · exact absurd h h1
      · exact absurd h h2
      · exact absurd h h3
  · have hw : write_data_port p s.memory (v % 2 ^ 32) z =
        .error Fault.unhandled_transfer_target := by
      have e : ym7101_write p s a v z =
          (write_data_port p s.memory (v % 2 ^ 32) z >>= fun m =>
            pure { s with memory := m }) := by
        rcases haddr with rfl | rfl <;> rfl
      rw [e] at hfault
      cases hd : write_data_port p s.memory (v % 2 ^ 32) z with
      | error e1 =>
        rw [hd] at hfault
        cases hfault
        rfl
      | ok m1 =>
        rw [hd] at hfault
        cases hfault
    obtain ⟨_, h1, h2, h3⟩ := (write_data_port_target_fault p s.memory _ z).1 hw
    by_contra hne
    rcases target_valid_after_setup p ws ym7101_reset s hrun
      (Or.inr (Nat.pos_of_ne_zero hne)) with h | h | h
    · exact h1 h
    · exact h2 h
    · exact h3 h

/-- C29, witness: from reset the control pair `0x4000`, `0x0000` completes one
setup and a data-port write then succeeds, while in the reset state, and after
a register write only, the data-port write fails with the
unhandled-transfer-target fault. -/
theorem unhandled_target_only_before_setup_witness :
    spec_setup_count 8 ym7101_reset [(0x04, 0x8104, 2)] = 0 ∧
    (∃ s, run_writes 8 ym7101_reset [(0x04, 0x8104, 2)] = .ok s ∧
      ym7101_write 8 s 0x00 0x55 1 = .error Fault.unhandled_transfer_target) ∧
    spec_setup_count 8 ym7101_reset [(0x04, 0x4000, 2), (0x04, 0x0000, 2)] = 1 ∧
    (∃ s s1, run_writes 8 ym7101_reset [(0x04, 0x4000, 2), (0x04, 0x0000, 2)] = .ok s ∧
      ym7101_write 8 s 0x00 0x55 1 = .ok s1) ∧
    ym7101_write 8 ym7101_reset 0x00 0x55 1 = .error Fault.unhandled_transfer_target :=
  ⟨(unhandled_target_only_before_setup 8).2.2.1 [(0x04, 0x8104, 2)] _ 0x00 0x55 1 rfl
      (Or.inl rfl) rfl,
   ⟨_, rfl, rfl⟩, rfl, ⟨_, _, rfl, rfl⟩,
   ((unhandled_target_only_before_setup 8).2.2.2 0x55 1).1⟩

theorem bank_of_dest_update (m : Memory) (x : Nat) (b : Bank) :
    ({ m with transfer_dest_addr := x } : Memory).bank b = m.bank b := by
  cases b <;> rfl

/-- C30: outside fill mode, with a valid target `t`, a pointer size `p` between
1 and 80 and a width `n ≤ 4`, a data-port write returns; the arrays other than
`t` are unchanged; a byte of `t` that changed lies inside the array at one of
the `n` indices `(transfer_dest_addr + i) % p`, `i < n`; `transfer_dest_addr`
becomes `(transfer_dest_addr + transfer_auto_inc) % 2^32`; the control latch,
the DMA mode, the busy flag, the fill word, the length and source fields and
every other field are unchanged. In fill mode (`transfer_type & 0x30 == 0x20`)
the write returns, no byte of any array changes and `transfer_dest_addr` and
`transfer_remain` are unchanged. -/
theorem data_write_frame (p : Nat) (m : Memory) (v n : Nat) (hn : n ≤ 4) :
    (∀ t, m.transfer_type &&& 0x30 ≠ 0x20 → get_transfer_target m = .ok t →
      0 < p → p ≤ 80 →
      ∃ m2, write_data_port p m v n = .ok m2 ∧
        (∀ b, b ≠ t → m2.bank b = m.bank b) ∧
        (∀ j, m2.bank t j ≠ m.bank t j →
          j < t.size ∧ ∃ i, i < n ∧ j = (m.transfer_dest_addr + i) % p) ∧
        m2.transfer_dest_addr = (m.transfer_dest_addr + m.transfer_auto_inc) % 2 ^ 32 ∧
        m2.ctrl_port_set = m.ctrl_port_set ∧
        m2.ctrl_port_buffer = m.ctrl_port_buffer ∧
        m2.transfer_run = m.transfer_run ∧
        m2.transfer_dma_busy = m.transfer_dma_busy ∧
        m2.transfer_fill_word = m.transfer_fill_word ∧
        m2.transfer_count = m.transfer_count ∧
        m2.transfer_remain = m.transfer_remain ∧
        m2.transfer_src_addr = m.transfer_src_addr ∧
        { m2 with
          vram := m.vram, cram := m.cram, vsram := m.vsram
          transfer_dest_addr := m.transfer_dest_addr } = m) ∧
    (m.transfer_type &&& 0x30 = 0x20 →
      ∃ m2, write_data_port p m v n = .ok m2 ∧
        m2.vram = m.vram ∧ m2.cram = m.cram ∧ m2.vsram = m.vsram ∧
        m2.transfer_dest_addr = m.transfer_dest_addr ∧
        m2.transfer_remain = m.transfer_remain) := by
  refine ⟨fun t hfill ht hp hp2 => ?_, fun hfill => ?_⟩
  · obtain ⟨m1, hl⟩ := write_data_loop_ok p t m.transfer_dest_addr v n hp hp2 hn n 0 m
      (by omega)
    obtain ⟨f1, f2, f3⟩ := write_data_loop_frame p t _ v n n 0 m m1 hl
    obtain ⟨g1, g2, g3, g4, g5, g6, g7, g8, g9, g10, g11, g12, g13⟩ :=
      Memory.rest_fields m m1 f1
    have hw : write_data_port p m v n = .ok
        { m1 with
          transfer_dest_addr := (m1.transfer_dest_addr + m1.transfer_auto_inc) % 2 ^ 32 } := by
      unfold write_data_port
      rw [if_neg hfill]
      simp only [bind, Except.bind, ht, hl, pure, Except.pure]
    refine ⟨_, hw, ?_, ?_, ?_, g13, g12, g9, g11, g8, g3, g4, g5, ?_⟩
    · intro b hb
      rw [bank_of_dest_update]
      exact f2 b hb
    · intro j hj
      rw [bank_of_dest_update] at hj
      rcases f3 j with e | ⟨h1, k, _, hk, hjk⟩
      · exact absurd e hj
      · exact ⟨h1, k, by omega, hjk⟩
    · show (m1.transfer_dest_addr + m1.transfer_auto_inc) % 2 ^ 32 = _
      rw [g6, g7]
    · exact Memory.eq_of_fields _ _ rfl rfl rfl g1 g2 g3 g4 g5 rfl g7 g8 g9 g10 g11 g12 g13
  · rw [write_data_port_fill p m v n hfill hn]
    exact ⟨_, rfl, rfl, rfl, rfl, rfl, rfl⟩

/-- C30, witness: after the control pair `0x4000`, `0x0000` and an
auto-increment of 2 the target is VRAM at address 0; a 2-byte data-port write
returns, leaves CRAM and VSRAM as they were and moves the destination address
to 2. After the pair `0x4000`, `0x0080` the transfer is a fill and a 2-byte
write changes no array and no address. -/
theorem data_write_frame_witness :
    (2 ≤ 4) ∧
    (∃ m2, write_data_port 8
        { setup_transfer ym7101_reset.memory 0x4000 0 with transfer_auto_inc := 2 } 0xABCD 2 =
          .ok m2 ∧
      (∀ b, b ≠ Bank.vram → m2.bank b = ym7101_reset.memory.bank b) ∧
      m2.transfer_dest_addr = 2) ∧
    (∃ m2, write_data_port 8 (setup_transfer ym7101_reset.memory 0x4000 0x0080) 0xABCD 2 =
          .ok m2 ∧
      m2.transfer_dest_addr = 0 ∧ m2.transfer_remain = 0) :=
  ⟨by decide,
   (fun ⟨m2, h1, h2, _, h4, _⟩ => ⟨m2, h1, h2, h4⟩)
     ((data_write_frame 8
        { setup_transfer ym7101_reset.memory 0x4000 0 with transfer_auto_inc := 2 } 0xABCD 2
        (by decide)).1 Bank.vram (by decide) rfl (by decide) (by decide)),
   (fun ⟨m2, h1, _, _, _, h5, h6⟩ => ⟨m2, h1, h5, h6⟩)
     ((data_write_frame 8 (setup_transfer ym7101_reset.memory 0x4000 0x0080) 0xABCD 2
        (by decide)).2 (by decide))⟩

end Ym7101
